import Mathlib

/-!
Verification development for the tailor-pwa repository: a collection of
near-duplicate Netlify serverless functions that accept an HTTP POST with an
action and a prompt, forward the prompt to an upstream completion API, and
validate or write the resulting PWA bundle.

The JavaScript source is shallowly embedded here.  JSON values are the
inductive `JVal`; `parseJson` models JSON.parse; event/response records model
the Netlify handler interface; upstream HTTP calls and other external
collaborators (archiving, IPFS, deploys) are supplied as explicit oracle
parameters, so every handler is a pure, executable function of its inputs.
JavaScript strings are modelled as Lean strings (lengths count code points).
-/

set_option maxRecDepth 4096

namespace JsModel

/-- JSON values as produced by JSON.parse.  Numbers keep their raw literal
text: no claim computes with numeric values, only with truthiness. -/
inductive JVal where
  | jstr : String → JVal
  | jnum : String → JVal
  | jbool : Bool → JVal
  | jnull : JVal
  | jarr : List JVal → JVal
  | jobj : List (String × JVal) → JVal

/-- Association-list lookup of an object field (parser output has unique keys). -/
def lookupKV : List (String × JVal) → String → Option JVal
  | [], _ => none
  | (k, v) :: rest, f => if k = f then some v else lookupKV rest f

/-- Insert a field, overwriting an existing key in place (JS object semantics
for duplicate JSON keys: later value wins, original position kept). -/
def insertKV : List (String × JVal) → String → JVal → List (String × JVal)
  | [], k, v => [(k, v)]
  | (k0, v0) :: rest, k, v =>
    if k0 = k then (k0, v) :: rest else (k0, v0) :: insertKV rest k v

/-- JSON whitespace. -/
def isWs (c : Char) : Bool :=
  c == ' ' || c == '\n' || c == '\t' || c == '\r'

def skipWs : List Char → List Char
  | [] => []
  | c :: cs => if isWs c then skipWs cs else c :: cs

def hexVal? (c : Char) : Option Nat :=
  if '0' ≤ c ∧ c ≤ '9' then some (c.toNat - 48)
  else if 'a' ≤ c ∧ c ≤ 'f' then some (c.toNat - 87)
  else if 'A' ≤ c ∧ c ≤ 'F' then some (c.toNat - 55)
  else none

/-- Body of a JSON string literal, after the opening quote.  Returns the
decoded characters and the input remaining after the closing quote. -/
def parseStrBody : Nat → List Char → Option (List Char × List Char)
  | 0, _ => none
  | _ + 1, [] => none
  | fuel + 1, c :: cs =>
    if c = '"' then some ([], cs)
    else if c = '\\' then
      match cs with
      | [] => none
      | e :: cs2 =>
        if e = '"' then (parseStrBody fuel cs2).map (fun p => ('"' :: p.1, p.2))
        else if e = '\\' then (parseStrBody fuel cs2).map (fun p => ('\\' :: p.1, p.2))
        else if e = '/' then (parseStrBody fuel cs2).map (fun p => ('/' :: p.1, p.2))
        else if e = 'n' then (parseStrBody fuel cs2).map (fun p => ('\n' :: p.1, p.2))
        else if e = 't' then (parseStrBody fuel cs2).map (fun p => ('\t' :: p.1, p.2))
        else if e = 'r' then (parseStrBody fuel cs2).map (fun p => ('\r' :: p.1, p.2))
        else if e = 'b' then (parseStrBody fuel cs2).map (fun p => (Char.ofNat 8 :: p.1, p.2))
        else if e = 'f' then (parseStrBody fuel cs2).map (fun p => (Char.ofNat 12 :: p.1, p.2))
        else if e = 'u' then
          match cs2 with
          | a :: b :: c3 :: d :: cs3 =>
            match hexVal? a, hexVal? b, hexVal? c3, hexVal? d with
            | some x, some y, some z, some w =>
              (parseStrBody fuel cs3).map
                (fun p => (Char.ofNat (((x * 16 + y) * 16 + z) * 16 + w) :: p.1, p.2))
            | _, _, _, _ => none
          | _ => none
        else none
    else if c.toNat < 32 then none
    else (parseStrBody fuel cs).map (fun p => (c :: p.1, p.2))

/-- Longest digit prefix. -/
def spanDigits : List Char → List Char × List Char
  | [] => ([], [])
  | c :: cs =>
    if c.isDigit then
      let p := spanDigits cs
      (c :: p.1, p.2)
    else ([], c :: cs)

/-- JSON number grammar, integer part: 0 or [1-9]digits. -/
def parseIntPart : List Char → Option (List Char × List Char)
  | [] => none
  | c :: cs =>
    if c = '0' then some ([c], cs)
    else if c.isDigit then
      let p := spanDigits cs
      some (c :: p.1, p.2)
    else none

/-- Optional fraction part. -/
def parseFracPart : List Char → Option (List Char × List Char)
  | [] => some ([], [])
  | c :: cs =>
    if c = '.' then
      match spanDigits cs with
      | ([], _) => none
      | (ds, rest) => some (c :: ds, rest)
    else some ([], c :: cs)

/-- Optional exponent part. -/
def parseExpPart : List Char → Option (List Char × List Char)
  | [] => some ([], [])
  | c :: cs =>
    if c = 'e' ∨ c = 'E' then
      match cs with
      | [] => none
      | s :: cs2 =>
        if s = '+' ∨ s = '-' then
          match spanDigits cs2 with
          | ([], _) => none
          | (ds, rest) => some (c :: s :: ds, rest)
        else
          match spanDigits cs with
          | ([], _) => none
          | (ds, rest) => some (c :: ds, rest)
    else some ([], c :: cs)

/-- Lex a JSON number, keeping its raw text. -/
def parseNum : List Char → Option (List Char × List Char)
  | [] => none
  | c :: cs =>
    if c = '-' then
      match parseIntPart cs with
      | none => none
      | some (ip, r1) =>
        match parseFracPart r1 with
        | none => none
        | some (fp, r2) =>
          match parseExpPart r2 with
          | none => none
          | some (ep, r3) => some (c :: (ip ++ fp ++ ep), r3)
    else
      match parseIntPart (c :: cs) with
      | none => none
      | some (ip, r1) =>
        match parseFracPart r1 with
        | none => none
        | some (fp, r2) =>
          match parseExpPart r2 with
          | none => none
          | some (ep, r3) => some (ip ++ fp ++ ep, r3)

mutual

/-- Recursive-descent JSON value parser (fuel bounds the recursion; the
entry point supplies more fuel than any input can consume). -/
def parseVal (fuel : Nat) (cs : List Char) : Option (JVal × List Char) :=
  match fuel with
  | 0 => none
  | fuel + 1 =>
    match cs with
    | [] => none
    | '"' :: rest =>
      (parseStrBody (rest.length + 1) rest).map
        (fun p => (JVal.jstr (String.mk p.1), p.2))
    | 't' :: 'r' :: 'u' :: 'e' :: r => some (JVal.jbool true, r)
    | 'f' :: 'a' :: 'l' :: 's' :: 'e' :: r => some (JVal.jbool false, r)
    | 'n' :: 'u' :: 'l' :: 'l' :: r => some (JVal.jnull, r)
    | '{' :: rest =>
      match skipWs rest with
      | '}' :: r => some (JVal.jobj [], r)
      | rest2 => (parseMembers fuel rest2 []).map (fun p => (JVal.jobj p.1, p.2))
    | '[' :: rest =>
      match skipWs rest with
      | ']' :: r => some (JVal.jarr [], r)
      | rest2 => (parseItems fuel rest2 []).map (fun p => (JVal.jarr p.1, p.2))
    | c :: _ =>
      if c == '-' || c.isDigit then
        (parseNum cs).map (fun p => (JVal.jnum (String.mk p.1), p.2))
      else none

/-- Object members: "key" : value (, ...)* then the closing brace. -/
def parseMembers (fuel : Nat) (cs : List Char) (acc : List (String × JVal)) :
    Option (List (String × JVal) × List Char) :=
  match fuel with
  | 0 => none
  | fuel + 1 =>
    match cs with
    | '"' :: rest =>
      match parseStrBody (rest.length + 1) rest with
      | none => none
      | some (kcs, r1) =>
        match skipWs r1 with
        | ':' :: r3 =>
          match parseVal fuel (skipWs r3) with
          | none => none
          | some (v, r4) =>
            let acc2 := insertKV acc (String.mk kcs) v
            match skipWs r4 with
            | ',' :: r5 => parseMembers fuel (skipWs r5) acc2
            | '}' :: r5 => some (acc2, r5)
            | _ => none
        | _ => none
    | _ => none

/-- Array items. -/
def parseItems (fuel : Nat) (cs : List Char) (acc : List JVal) :
    Option (List JVal × List Char) :=
  match fuel with
  | 0 => none
  | fuel + 1 =>
    match parseVal fuel cs with
    | none => none
    | some (v, r1) =>
      match skipWs r1 with
      | ',' :: r2 => parseItems fuel (skipWs r2) (acc ++ [v])
      | ']' :: r2 => some (acc ++ [v], r2)
      | _ => none

end

/-- Model of JSON.parse: whole-input parse, surrounding whitespace allowed,
`none` models a thrown SyntaxError. -/
def parseJson (s : String) : Option JVal :=
  let cs := skipWs s.toList
  match parseVal (4 * (cs.length + 1)) cs with
  | some (v, rest) => if (skipWs rest).isEmpty then some v else none
  | none => none

end JsModel

namespace JsModel

/-- A thrown JavaScript Error object: its message, optional Node error
code, optional axios `response` data, and its stack text. -/
structure JsError where
  message : String
  code : Option String
  responseStatus : Option Nat
  responseDataMessage : Option String
  stack : String

/-- Abnormal termination of a JS computation. -/
inductive JsErr where
  | thrown : JsError → JsErr
  | typeError : String → JsErr
  | referenceError : String → JsErr

/-- `throw new Error(msg)` with no extra fields. -/
def thrownMsg (msg : String) : JsErr :=
  JsErr.thrown ⟨msg, none, none, none, ""⟩

/-- The `.message` an error exposes to catch blocks. -/
def errMsg : JsErr → String
  | JsErr.thrown e => e.message
  | JsErr.typeError m => m
  | JsErr.referenceError n => n ++ " is not defined"

/-- View any JsErr as an Error object (TypeError and ReferenceError carry
no `code` or `response`). -/
def toErrObj : JsErr → JsError
  | JsErr.thrown e => e
  | JsErr.typeError m => ⟨m, none, none, none, ""⟩
  | JsErr.referenceError n => ⟨n ++ " is not defined", none, none, none, ""⟩

/-- Is a JSON number literal zero?  True iff every digit of the mantissa
(the part before any exponent) is 0. -/
def numIsZero (raw : String) : Bool :=
  (raw.toList.takeWhile (fun c => !(c == 'e' || c == 'E'))).all
    (fun c => !c.isDigit || c == '0')

/-- JavaScript falsiness of a defined value. -/
def jsFalsyV : JVal → Bool
  | JVal.jnull => true
  | JVal.jbool b => !b
  | JVal.jstr s => s == ""
  | JVal.jnum raw => numIsZero raw
  | JVal.jarr _ => false
  | JVal.jobj _ => false

/-- JavaScript falsiness, `none` standing for `undefined`. -/
def jsFalsy : Option JVal → Bool
  | none => true
  | some v => jsFalsyV v

/-- Property access `v[f]`: throws TypeError on null/undefined, yields the
field on objects, and undefined on primitives (no prototype lookups). -/
def jsPropE : Option JVal → String → Except JsErr (Option JVal)
  | none, f =>
    Except.error (JsErr.typeError
      ("Cannot read properties of undefined (reading \x27" ++ f ++ "\x27)"))
  | some JVal.jnull, f =>
    Except.error (JsErr.typeError
      ("Cannot read properties of null (reading \x27" ++ f ++ "\x27)"))
  | some (JVal.jobj kvs), f => Except.ok (lookupKV kvs f)
  | some _, _ => Except.ok none

/-- Field of a defined value that is known non-null (used after a guard). -/
def lookupJV : JVal → String → Option JVal
  | JVal.jobj kvs, f => lookupKV kvs f
  | _, _ => none

/-- Strict equality of a possibly-undefined value against a string literal. -/
def jvalIsStr (v : Option JVal) (s : String) : Bool :=
  match v with
  | some (JVal.jstr t) => t == s
  | _ => false

/-- Does `pat` start `l`? -/
def listStartsWith : List Char → List Char → Bool
  | [], _ => true
  | _ :: _, [] => false
  | p :: ps, c :: cs => if p = c then listStartsWith ps cs else false

/-- Substring occurrence check over char lists. -/
def containsSubL (pat : List Char) : List Char → Bool
  | [] => listStartsWith pat []
  | c :: cs => if listStartsWith pat (c :: cs) then true else containsSubL pat cs

/-- `s.includes(pat)`. -/
def containsSub (s pat : String) : Bool :=
  containsSubL pat.toList s.toList

/-- ASCII lowercasing, modelling `toLowerCase` on the strings involved. -/
def lcChar (c : Char) : Char :=
  if 'A' ≤ c ∧ c ≤ 'Z' then Char.ofNat (c.toNat + 32) else c

def lcStr (s : String) : String :=
  String.mk (s.toList.map lcChar)

/-- `String.prototype.trim`: drop whitespace at both ends. -/
def trimL (l : List Char) : List Char :=
  ((l.dropWhile isWs).reverse.dropWhile isWs).reverse

def jsTrim (s : String) : String :=
  String.mk (trimL s.toList)

/-- Array.prototype.join with ", ", as used on the missing-field list. -/
def joinComma : List String → String
  | [] => ""
  | [x] => x
  | x :: y :: rest => x ++ ", " ++ joinComma (y :: rest)

end JsModel

namespace JsModel

/-- The fence tokens of the regex /```json|```/g. -/
def fence7 : List Char := "```json".toList

def fence3 : List Char := "```".toList

/-- `response.replace(/```json|```/g, "")`: scan left to right, at each
position removing "```json" if it starts there, else "```", else keeping
the character (regex alternation tries the longer branch first). -/
def stripAux (l : List Char) : List Char :=
  match l with
  | [] => []
  | c :: cs =>
    if listStartsWith fence7 (c :: cs) then stripAux (List.drop 7 (c :: cs))
    else if listStartsWith fence3 (c :: cs) then stripAux (List.drop 3 (c :: cs))
    else c :: stripAux cs
termination_by l.length
decreasing_by
  all_goals simp [List.length_drop]
  all_goals omega

def stripFences (s : String) : String :=
  String.mk (stripAux s.toList)

/-- The span matched by the greedy regex /\{[\s\S]*\}/ : from the first
opening brace through the last closing brace, when that span is nonempty. -/
def braceSpan (l : List Char) : Option (List Char) :=
  let fromBrace := l.dropWhile (fun c => !(c == '{'))
  let upToClose := (fromBrace.reverse.dropWhile (fun c => !(c == '}'))).reverse
  if upToClose.isEmpty then none else some upToClose

/-- validator.escape from the validator.js library: HTML-entity-escape
the characters & " ' < > / \ and backtick. -/
def escapeChar (c : Char) : String :=
  if c = '&' then "&amp;"
  else if c = '"' then "&quot;"
  else if c = Char.ofNat 39 then "&#x27;"
  else if c = '<' then "&lt;"
  else if c = '>' then "&gt;"
  else if c = '/' then "&#x2F;"
  else if c = '\\' then "&#x5C;"
  else if c = Char.ofNat 96 then "&#96;"
  else String.mk [c]

def escapeL : List Char → List Char
  | [] => []
  | c :: cs => (escapeChar c).toList ++ escapeL cs

def escape (s : String) : String :=
  String.mk (escapeL s.toList)

/-- A Netlify function trigger event. -/
structure Event where
  httpMethod : String
  body : Option String
  headers : List (String × String)

/-- A handler response; the body is kept as the JS value passed to
JSON.stringify (for part_000's bare 405 a plain string). -/
structure Response where
  statusCode : Nat
  headers : List (String × String)
  body : JVal

end JsModel

namespace Part000

open JsModel

/-- Contents of the public directory: filename to file text. -/
abbrev Dir := List (String × String)

/-- The public directory on disk; `none` means it does not exist. -/
abbrev Fs := Option Dir

def insertFile : Dir → String → String → Dir
  | [], name, content => [(name, content)]
  | (n, c) :: rest, name, content =>
    if n = name then (n, content) :: rest
    else (n, c) :: insertFile rest name content

/-- fs.writeFileSync: succeeds on string data, throws TypeError otherwise
(in particular on undefined field values). -/
def writeFileSync (d : Dir) (name : String) (data : Option JVal) :
    Except JsErr Dir :=
  match data with
  | some (JVal.jstr s) => Except.ok (insertFile d name s)
  | _ =>
    Except.error (JsErr.typeError
      "The \x22data\x22 argument must be of type string or an instance of Buffer, TypedArray, or DataView")

/-- Run a list of writeFileSync calls in order, stopping at the first throw
and keeping the files already written. -/
def writeSeq : Dir → List (String × Option JVal) → Dir × Option JsErr
  | d, [] => (d, none)
  | d, (name, data) :: rest =>
    match writeFileSync d name data with
    | Except.error e => (d, some e)
    | Except.ok d2 => writeSeq d2 rest

/-- `files.css || ""` in the style.css write. -/
def cssOrEmpty (v : Option JVal) : JVal :=
  match v with
  | some w => if jsFalsyV w then JVal.jstr "" else w
  | none => JVal.jstr ""

/-- part_000 writeFiles: remove the public directory if it exists, recreate
it, then write the five files in order; `files` is whatever value the caller
passed (the handler passes the request's `prompt`).  The result pairs the
directory state left on disk with the error, if one was thrown. -/
def writeFiles (files : Option JVal) (fs : Fs) : Fs × Option JsErr :=
  match jsPropE files "html" with
  | Except.error e => (some [], some e)
  | Except.ok h =>
    match jsPropE files "js" with
    | Except.error e => (some [], some e)
    | Except.ok j =>
      match jsPropE files "manifest" with
      | Except.error e => (some [], some e)
      | Except.ok m =>
        match jsPropE files "sw" with
        | Except.error e => (some [], some e)
        | Except.ok sw =>
          match jsPropE files "css" with
          | Except.error e => (some [], some e)
          | Except.ok css =>
            let r := writeSeq []
              [("index.html", h), ("app.js", j), ("manifest.json", m),
               ("service-worker.js", sw), ("style.css", some (cssOrEmpty css))]
            (some r.1, r.2)

/-- Oracles for part_000's external collaborators (MindsDB chat endpoint,
archiver, Netlify deploy API, IPFS client). -/
structure Up where
  clarify : Option JVal → Except JsErr String
  generate : Option JVal → Except JsErr JVal
  zipRun : Except JsErr Unit
  deploy : Except JsErr String
  ipfs : Except JsErr String

/-- Outcome of one part_000 handler invocation: the settled result, the
public-directory state left behind, and how many upstream network calls
were issued. -/
structure Out where
  result : Except JsErr Response
  fs : Fs
  calls : Nat

/-- `const «set:action,prompt» = JSON.parse(event.body)` destructuring:
throws on null, reads own properties of objects, undefined otherwise. -/
def destructAP (b : JVal) : Except JsErr (Option JVal × Option JVal) :=
  match b with
  | JVal.jnull =>
    Except.error (JsErr.typeError
      "Cannot destructure property \x27action\x27 of \x27JSON.parse(...)\x27 as it is null.")
  | JVal.jobj kvs => Except.ok (lookupKV kvs "action", lookupKV kvs "prompt")
  | _ => Except.ok (none, none)

/-- JSON.parse rejection surfaced as a SyntaxError (engine-specific text
abbreviated; no claim depends on its wording). -/
def jsonSyntaxErr : JsErr := thrownMsg "Unexpected token in JSON"

/-- The catch branch of part_000's handler. -/
def catch000 (e : JsErr) : Response :=
  ⟨500, [], JVal.jobj [("error", JVal.jstr (errMsg e))]⟩

/-- part_000 handler: no CORS handling, no OPTIONS branch; actions clarify,
generate, write, zip, deploy, ipfs; anything else answers 400. -/
def handler (up : Up) (fs : Fs) (ev : Event) : Out :=
  if ¬ ev.httpMethod = "POST" then
    ⟨Except.ok ⟨405, [], JVal.jstr "Method Not Allowed"⟩, fs, 0⟩
  else
    match parseJson (ev.body.getD "null") with
    | none => ⟨Except.ok (catch000 jsonSyntaxErr), fs, 0⟩
    | some b =>
      match destructAP b with
      | Except.error e => ⟨Except.ok (catch000 e), fs, 0⟩
      | Except.ok (action, prompt) =>
        if jvalIsStr action "clarify" then
          match up.clarify prompt with
          | Except.ok content =>
            ⟨Except.ok ⟨200, [], JVal.jobj [("content", JVal.jstr content)]⟩, fs, 1⟩
          | Except.error e => ⟨Except.ok (catch000 e), fs, 1⟩
        else if jvalIsStr action "generate" then
          match up.generate prompt with
          | Except.ok content =>
            ⟨Except.ok ⟨200, [], JVal.jobj [("content", content)]⟩, fs, 1⟩
          | Except.error e => ⟨Except.ok (catch000 e), fs, 1⟩
        else if jvalIsStr action "write" then
          match writeFiles prompt fs with
          | (fs2, none) =>
            ⟨Except.ok ⟨200, [], JVal.jobj [("status", JVal.jstr "Files written")]⟩, fs2, 0⟩
          | (fs2, some e) => ⟨Except.ok (catch000 e), fs2, 0⟩
        else if jvalIsStr action "zip" then
          match up.zipRun with
          | Except.ok _ =>
            ⟨Except.ok ⟨200, [], JVal.jobj [("status", JVal.jstr "Project zipped")]⟩, fs, 0⟩
          | Except.error e => ⟨Except.ok (catch000 e), fs, 0⟩
        else if jvalIsStr action "deploy" then
          match up.deploy with
          | Except.ok url =>
            ⟨Except.ok ⟨200, [], JVal.jobj [("url", JVal.jstr url)]⟩, fs, 1⟩
          | Except.error e => ⟨Except.ok (catch000 e), fs, 1⟩
        else if jvalIsStr action "ipfs" then
          match up.ipfs with
          | Except.ok url =>
            ⟨Except.ok ⟨200, [], JVal.jobj [("url", JVal.jstr url)]⟩, fs, 1⟩
          | Except.error e => ⟨Except.ok (catch000 e), fs, 1⟩
        else
          ⟨Except.ok ⟨400, [], JVal.jobj [("error", JVal.jstr "Unknown action")]⟩, fs, 0⟩

end Part000

namespace CamelFn

open JsModel

/-- Oracles for the camel revision's collaborators: the two camel.ai
endpoints and the archive/IPFS step of the generate branch
(lines 139-157 of the revision; declared out of scope by the spec). -/
structure Up where
  clarify : Option JVal → Except JsErr JVal
  generate : Option JVal → Except JsErr JVal
  archiveStep : JVal → Except JsErr JVal

def hdrs405 : List (String × String) :=
  [("Content-Type", "application/json"),
   ("Access-Control-Allow-Origin", "*"),
   ("Access-Control-Allow-Methods", "POST, OPTIONS"),
   ("Access-Control-Allow-Headers", "Content-Type")]

def hdrs : List (String × String) :=
  [("Content-Type", "application/json"),
   ("Access-Control-Allow-Origin", "*")]

/-- The catch branch (lines 187-218): status from err.response when present,
otherwise 500; the message from err.response data, or a fixed string chosen
by the Node error code, defaulting to "Internal Server Error". -/
def catchResp (dev : Bool) (now : String) (e : JsErr) : Response :=
  let je := toErrObj e
  let status :=
    match je.responseStatus with
    | some s => s
    | none => 500
  let msg :=
    match je.responseStatus with
    | some _ =>
      match je.responseDataMessage with
      | some m => m
      | none => je.message
    | none =>
      if je.code = some "ENOENT" then "File system error"
      else if je.code = some "ECONNREFUSED" then "Unable to connect to external service"
      else "Internal Server Error"
  ⟨status, hdrs,
    JVal.jobj [("error", JVal.jstr msg),
               ("details", if dev then JVal.jstr je.stack else JVal.jnull),
               ("timestamp", JVal.jstr now)]⟩

/-- `const «set:action,prompt,options» = body` with `options = \x7b\x7d`
defaulting only a missing (undefined) field. -/
def destructAPO (b : JVal) :
    Except JsErr (Option JVal × Option JVal × JVal) :=
  match b with
  | JVal.jnull =>
    Except.error (JsErr.typeError
      "Cannot destructure property \x27action\x27 of \x27body\x27 as it is null.")
  | JVal.jobj kvs =>
    Except.ok (lookupKV kvs "action", lookupKV kvs "prompt",
      (lookupKV kvs "options").getD (JVal.jobj []))
  | _ => Except.ok (none, none, JVal.jobj [])

def successResp (now : String) (action : Option JVal) (data : JVal) : Response :=
  ⟨200, hdrs,
    JVal.jobj [("success", JVal.jbool true),
               ("action", action.getD JVal.jnull),
               ("data", data),
               ("timestamp", JVal.jstr now)]⟩

/-- The camel revision's handler (part_001 lines 100-219): 405 for any
non-POST method (OPTIONS included), 400 with a bare error body when action
or prompt is falsy, clarify/generate dispatch, response-driven catch. -/
def handler (up : Up) (dev : Bool) (now : String) (ev : Event) :
    Response × Nat :=
  if ¬ ev.httpMethod = "POST" then
    (⟨405, hdrs405, JVal.jobj [("error", JVal.jstr "Method Not Allowed")]⟩, 0)
  else
    match parseJson (ev.body.getD "null") with
    | none => (catchResp dev now Part000.jsonSyntaxErr, 0)
    | some b =>
      match destructAPO b with
      | Except.error e => (catchResp dev now e, 0)
      | Except.ok (action, prompt, options) =>
        if jsFalsy action || jsFalsy prompt then
          (⟨400, hdrs, JVal.jobj [("error", JVal.jstr "Missing action or prompt")]⟩, 0)
        else if jvalIsStr action "clarify" then
          match up.clarify prompt with
          | Except.ok r => (successResp now action r, 1)
          | Except.error e => (catchResp dev now e, 1)
        else if jvalIsStr action "generate" then
          match up.generate prompt with
          | Except.error e => (catchResp dev now e, 1)
          | Except.ok pwa =>
            match jsPropE (some options) "createArchive" with
            | Except.error e => (catchResp dev now e, 1)
            | Except.ok ca =>
              if jsFalsy ca then (successResp now action pwa, 1)
              else
                match up.archiveStep pwa with
                | Except.ok pwa2 => (successResp now action pwa2, 1)
                | Except.error e => (catchResp dev now e, 1)
        else
          (⟨400, hdrs,
            JVal.jobj [("error",
              JVal.jstr "Invalid action provided. Use \x27clarify\x27 or \x27generate\x27")]⟩, 0)

end CamelFn

namespace MindsFn

open JsModel

/-- Environment of the MindsDB revision. -/
structure Env where
  mindsdbApiKey : Option String
  mindsdbApiUrl : Option String

/-- Net outcome of one axios.post to the MindsDB endpoint, as seen after
`response.data.choices?.[0]?.message?.content?.trim()`: an error, or the
optional content string. -/
structure Up where
  clarifyCall : Except JsError (Option String)
  generateCall : Except JsError (Option String)

/-- validateEnvironment (lines 342-368): MINDSDB_API_KEY must exist and
have at least 30 characters, else a generic configuration error is thrown. -/
def validateEnvironment (env : Env) : Except JsErr Unit :=
  match env.mindsdbApiKey with
  | none => Except.error (thrownMsg "Server configuration error")
  | some k =>
    if k.length < 30 then Except.error (thrownMsg "Server configuration error")
    else Except.ok ()

/-- callMindsDBAPI (lines 371-401): check the environment, perform the call,
and rewrap any axios failure as "API request failed: ...". -/
def callMindsDBAPI (env : Env) (call : Except JsError (Option String)) :
    Except JsErr (Option String) :=
  match validateEnvironment env with
  | Except.error e => Except.error e
  | Except.ok _ =>
    match call with
    | Except.error e =>
      Except.error (thrownMsg ("API request failed: " ++ e.message))
    | Except.ok c => Except.ok c

/-- Is the optional content string falsy (missing or empty)? -/
def contentFalsy : Option String → Bool
  | none => true
  | some s => s = ""

/-- clarifyPrompt (lines 404-414). -/
def clarifyPrompt (env : Env) (up : Up) : Except JsErr String :=
  match callMindsDBAPI env up.clarifyCall with
  | Except.error e => Except.error e
  | Except.ok r =>
    if contentFalsy r then Except.error (thrownMsg "Empty clarification response")
    else Except.ok (r.getD "")

def requiredFields : List String := ["html", "js", "manifest", "sw", "css"]

/-- `requiredFields.filter(field => !result[field])`. -/
def missingOf (result : JVal) : List String :=
  requiredFields.filter (fun f => jsFalsy (lookupJV result f))

/-- The un-caught body of the generatePWA field validation: throws an error
naming every missing field (line 442). -/
def validateFields (result : JVal) : Except JsErr JVal :=
  match result with
  | JVal.jnull =>
    Except.error (JsErr.typeError
      "Cannot read properties of null (reading \x27html\x27)")
  | _ =>
    if (missingOf result).isEmpty then Except.ok result
    else
      Except.error (thrownMsg ("Missing fields: " ++ joinComma (missingOf result)))

/-- The extraction-and-validation `try` body of generatePWA (lines 433-445):
strip code fences, trim, JSON.parse, then the missing-field check. -/
def extractTryBody (response : String) : Except JsErr JVal :=
  match parseJson (jsTrim (stripFences response)) with
  | none => Except.error Part000.jsonSyntaxErr
  | some result => validateFields result

/-- generatePWA after a non-empty upstream response: any failure of the try
body is caught and replaced by "Invalid PWA structure received" (line 451). -/
def extractCaught (response : String) : Except JsErr JVal :=
  match extractTryBody response with
  | Except.ok r => Except.ok r
  | Except.error _ => Except.error (thrownMsg "Invalid PWA structure received")

/-- generatePWA (lines 416-453). -/
def generatePWA (env : Env) (up : Up) : Except JsErr JVal :=
  match callMindsDBAPI env up.generateCall with
  | Except.error e => Except.error e
  | Except.ok r =>
    if contentFalsy r then Except.error (thrownMsg "Empty generation response")
    else extractCaught (r.getD "")

def hdrs : List (String × String) :=
  [("Access-Control-Allow-Origin", "*"),
   ("Access-Control-Allow-Headers", "Content-Type"),
   ("Access-Control-Allow-Methods", "POST, OPTIONS"),
   ("Content-Type", "application/json")]

/-- The catch branch (lines 499-520): substring-driven status mapping and a
success:false body, with the stack exposed in development mode. -/
def catchResp (dev : Bool) (e : JsErr) : Response :=
  let msg := errMsg e
  let status :=
    if containsSub msg "Not Allowed" then 405
    else if containsSub msg "required" then 400
    else 500
  ⟨status, hdrs,
    JVal.jobj ([("success", JVal.jbool false), ("error", JVal.jstr msg)] ++
      (if dev then [("stack", JVal.jstr (toErrObj e).stack)] else []))⟩

/-- Was the axios call reached (environment validation passed)?  Used to
count actual network calls. -/
def envOk (env : Env) : Bool :=
  match validateEnvironment env with
  | Except.ok _ => true
  | Except.error _ => false

/-- The MindsDB revision's handler (lines 456-521): OPTIONS preflight 204,
other non-POST 405, thrown validation errors routed through the
substring status mapping. -/
def handler (env : Env) (up : Up) (dev : Bool) (ev : Event) :
    Response × Nat :=
  if ev.httpMethod = "OPTIONS" then
    (⟨204, hdrs, JVal.jstr ""⟩, 0)
  else if ¬ ev.httpMethod = "POST" then
    (⟨405, hdrs, JVal.jobj [("error", JVal.jstr "Method Not Allowed")]⟩, 0)
  else
    let calls := if envOk env then 1 else 0
    match ev.body with
    | none => (catchResp dev (thrownMsg "Request body required"), 0)
    | some raw =>
      if raw = "" then (catchResp dev (thrownMsg "Request body required"), 0)
      else
        match parseJson raw with
        | none => (catchResp dev Part000.jsonSyntaxErr, 0)
        | some b =>
          match Part000.destructAP b with
          | Except.error e => (catchResp dev e, 0)
          | Except.ok (action, prompt) =>
            if jsFalsy action || jsFalsy prompt then
              (catchResp dev (thrownMsg "Action and prompt required"), 0)
            else
              let res :=
                if jvalIsStr action "clarify" then
                  (clarifyPrompt env up).map JVal.jstr
                else generatePWA env up
              match res with
              | Except.ok result =>
                (⟨200, hdrs,
                  JVal.jobj [("success", JVal.jbool true), ("result", result)]⟩, calls)
              | Except.error e => (catchResp dev e, calls)

end MindsFn

namespace AgentFn

open JsModel

/-- The recognized medical actions (agent.js line 178). -/
def validActions : List String :=
  ["clarify", "generate", "diagnose", "treatment_plan", "create_chat_session"]

/-- validateMedicalAction (lines 177-183): `includes` uses strict equality,
so only these five strings pass; anything else throws. -/
def validateMedicalAction (action : JVal) : Except JsErr JVal :=
  if validActions.any (fun a => jvalIsStr (some action) a) then Except.ok action
  else
    Except.error (thrownMsg
      ("Invalid medical action. Must be one of: " ++ joinComma validActions))

/-- The finite language of the four case-insensitive dangerous-advice
regexes (lines 161-166), expanded alternation by alternation. -/
def dangerousPhrases : List String :=
  ["do not seek doctor", "do not seek a doctor", "do not seek your doctor",
   "do not consult doctor", "do not consult a doctor", "do not consult your doctor",
   "do not see doctor", "do not see a doctor", "do not see your doctor",
   "avoid medical attention", "avoid medical help",
   "instead of seeing a doctor", "replace medical treatment"]

/-- `pattern.test(sanitized)` for the dangerous patterns, all flagged /i. -/
def dangerousTest (s : String) : Bool :=
  dangerousPhrases.any (fun p => containsSub (lcStr s) p)

/-- validateMedicalPrompt (lines 130-175): reject non-strings and the empty
string, enforce the 20 and 3000 length bounds on the raw input, then return
`validator.escape(prompt)` unless a dangerous pattern matches it.  (The
medical-keyword scan only emits a console warning and is omitted.) -/
def validateMedicalPrompt (prompt : Option JVal) : Except JsErr String :=
  match prompt with
  | some (JVal.jstr p) =>
    if p == "" then
      Except.error (thrownMsg "Medical prompt must be a non-empty string")
    else if p.length < 20 then
      Except.error (thrownMsg
        "Medical prompt must be at least 20 characters long for proper context")
    else if p.length > 3000 then
      Except.error (thrownMsg "Medical prompt must be less than 3000 characters")
    else
      let sanitized := escape p
      if dangerousTest sanitized then
        Except.error (thrownMsg
          "Prompt contains potentially dangerous medical advice patterns")
      else Except.ok sanitized
  | _ => Except.error (thrownMsg "Medical prompt must be a non-empty string")

mutual

/-- ToString coercion applied by JSON.parse to a non-string argument. -/
def jsToString : JVal → String
  | JVal.jstr s => s
  | JVal.jnum raw => raw
  | JVal.jbool b => if b then "true" else "false"
  | JVal.jnull => "null"
  | JVal.jobj _ => "[object Object]"
  | JVal.jarr elems => jsToStringList elems

def jsToStringList : List JVal → String
  | [] => ""
  | [x] => jsToString x
  | x :: y :: rest => jsToString x ++ "," ++ jsToStringList (y :: rest)

end

/-- Property assignment `pwa.reactComponent = ...`: updates objects, is a
silent no-op on other primitives. -/
def setProp (v : JVal) (f : String) (w : JVal) : JVal :=
  match v with
  | JVal.jobj kvs => JVal.jobj (insertKV kvs f w)
  | other => other

/-- MedicalPWATemplates.getReactDataChatComponent (lines 261-376).  The
template is an inert string constant; its full JSX text is abbreviated here
because no claim inspects its content, only its presence. -/
def reactDataChatComponent : String :=
  "import React from \x27react\x27; function MedicalDataChat() " ++
  "\x7b /* medical data chat iframe component */ \x7d export default MedicalDataChat;"

/-- The first-missing-field loop of generateMedicalPWA (lines 448-453):
throws for the first falsy field in order html, js, manifest, sw, css. -/
def fieldCheck (pwa : JVal) : Except JsErr Unit :=
  match pwa with
  | JVal.jnull =>
    Except.error (JsErr.typeError
      "Cannot read properties of null (reading \x27html\x27)")
  | _ =>
    match MindsFn.requiredFields.find? (fun f => jsFalsy (lookupJV pwa f)) with
    | some f =>
      Except.error (thrownMsg ("Missing required medical PWA field: " ++ f))
    | none => Except.ok ()

/-- The manifest re-validation (lines 468-471): JSON.parse the manifest
field, then require truthy name and description. -/
def manifestCheck (pwa : JVal) : Except JsErr Unit :=
  match parseJson (jsToString ((lookupJV pwa "manifest").getD JVal.jnull)) with
  | none => Except.error Part000.jsonSyntaxErr
  | some m =>
    match jsPropE (some m) "name" with
    | Except.error e => Except.error e
    | Except.ok nm =>
      if jsFalsy nm then
        Except.error (thrownMsg "Invalid medical PWA manifest structure")
      else
        match jsPropE (some m) "description" with
        | Except.error e => Except.error e
        | Except.ok ds =>
          if jsFalsy ds then
            Except.error (thrownMsg "Invalid medical PWA manifest structure")
          else Except.ok ()

/-- The `try` body of generateMedicalPWA after the upstream response
arrived (lines 437-473): greedy brace-span extraction, JSON.parse, the
first-missing-field check, the reactComponent default, then the manifest
check.  (The disclaimer scan only warns and is omitted.) -/
def generateTryBody (includeDataChat : Bool) (response : String) :
    Except JsErr JVal :=
  match braceSpan response.toList with
  | none =>
    Except.error (thrownMsg "No valid JSON found in Clinical Llama response")
  | some cs =>
    match parseJson (String.mk cs) with
    | none => Except.error Part000.jsonSyntaxErr
    | some pwa =>
      match fieldCheck pwa with
      | Except.error e => Except.error e
      | Except.ok _ =>
        let pwa2 :=
          if includeDataChat && jsFalsy (lookupJV pwa "reactComponent") then
            setProp pwa "reactComponent" (JVal.jstr reactDataChatComponent)
          else pwa
        match manifestCheck pwa2 with
        | Except.error e => Except.error e
        | Except.ok _ => Except.ok pwa2

/-- generateMedicalPWA (lines 408-478): the upstream call and the try body
share one catch that rewraps every failure. -/
def generateMedicalPWA (includeDataChat : Bool) (raw : Except JsErr String) :
    Except JsErr JVal :=
  match raw with
  | Except.error e =>
    Except.error (thrownMsg ("Failed to generate medical PWA: " ++ errMsg e))
  | Except.ok response =>
    match generateTryBody includeDataChat response with
    | Except.error e =>
      Except.error (thrownMsg ("Failed to generate medical PWA: " ++ errMsg e))
    | Except.ok v => Except.ok v

/-- clarifyMedicalPrompt (lines 380-405). -/
def clarifyMedicalPrompt (raw : Except JsErr String) : Except JsErr String :=
  match raw with
  | Except.ok r => Except.ok r
  | Except.error e =>
    Except.error (thrownMsg ("Failed to clarify medical prompt: " ++ errMsg e))

def mdDisclaimerLong : String :=
  "This information is for educational purposes only and should not replace professional medical advice, diagnosis, or treatment. Always consult with a qualified healthcare provider for medical concerns."

def emergencyNote : String :=
  "If you are experiencing a medical emergency, call emergency services immediately."

def mdDisclaimerShort : String :=
  "This service is for educational purposes only. Consult a healthcare professional for medical advice."

/-- provideDiagnosisSupport (lines 511-546). -/
def provideDiagnosisSupport (raw : Except JsErr String) : Except JsErr JVal :=
  match raw with
  | Except.ok r =>
    Except.ok (JVal.jobj
      [("diagnosticSupport", JVal.jstr r),
       ("disclaimer", JVal.jstr mdDisclaimerLong),
       ("emergencyNotice", JVal.jstr emergencyNote)])
  | Except.error e =>
    Except.error (thrownMsg ("Failed to provide diagnosis support: " ++ errMsg e))

/-- generateTreatmentPlan (lines 549-584). -/
def generateTreatmentPlan (raw : Except JsErr String) : Except JsErr JVal :=
  match raw with
  | Except.ok r =>
    Except.ok (JVal.jobj
      [("treatmentInfo", JVal.jstr r),
       ("disclaimer", JVal.jstr mdDisclaimerLong),
       ("emergencyNotice", JVal.jstr emergencyNote)])
  | Except.error e =>
    Except.error (thrownMsg ("Failed to generate treatment plan: " ++ errMsg e))

/-- Oracles for the Clinical Llama inference process (one per call site)
and for the whole data-chat session service (lines 481-508, wrapping the
out-of-scope camel.ai client). -/
structure Up where
  clarifyRaw : String → Except JsErr String
  generateRaw : String → Except JsErr String
  diagnoseRaw : String → Except JsErr String
  treatmentRaw : String → Except JsErr String
  chatSession : Option JVal → Except JsErr JVal

def securityHeaders : List (String × String) :=
  [("X-Content-Type-Options", "nosniff"),
   ("X-Frame-Options", "SAMEORIGIN"),
   ("X-XSS-Protection", "1; mode=block"),
   ("Strict-Transport-Security", "max-age=31536000; includeSubDomains; preload"),
   ("Content-Security-Policy", "default-src \x27self\x27"),
   ("Referrer-Policy", "strict-origin-when-cross-origin"),
   ("Permissions-Policy", "geolocation=(), microphone=(), camera=()")]

def corsHeaders (origin : Option String) : List (String × String) :=
  [("Access-Control-Allow-Origin", origin.getD "*"),
   ("Access-Control-Allow-Methods", "POST, OPTIONS"),
   ("Access-Control-Allow-Headers", "Content-Type, Authorization, X-Medical-Disclaimer"),
   ("Access-Control-Max-Age", "86400")]

def allHeaders (origin : Option String) : List (String × String) :=
  securityHeaders ++ corsHeaders origin

/-- A 400 body of the agent handler. -/
def err400Body (requestId msg : String) : JVal :=
  JVal.jobj [("error", JVal.jstr msg),
             ("requestId", JVal.jstr requestId),
             ("medicalDisclaimer", JVal.jstr mdDisclaimerShort)]

def successBody (requestId now : String) (content : JVal) : JVal :=
  JVal.jobj [("content", content),
             ("requestId", JVal.jstr requestId),
             ("timestamp", JVal.jstr now),
             ("medicalDisclaimer", JVal.jstr mdDisclaimerLong),
             ("emergencyNotice", JVal.jstr emergencyNote),
             ("model", JVal.jstr "Clinical Llama"),
             ("complianceNote",
              JVal.jstr "This service follows medical application guidelines and emphasizes professional medical consultation.")]

/-- Identifiers visible inside the handler's catch block.  Per JS block
scoping, `body`, `validatedAction`, `validatedPrompt` and `result` are
let/const declarations inside the `try` block and are NOT in scope here. -/
def catchScope : List String :=
  ["event", "context", "requestId", "medicalSecurityHeaders",
   "corsHeaders", "headers", "error"]

/-- The handler's catch block (lines 769-789).  Its second statement
evaluates `body?.action`; when the identifier `body` is not in scope that
read throws a ReferenceError, so the catch itself rejects and the
structured 500 response below it is never built. -/
def agentCatch (scope : List String) (prod : Bool)
    (hs : List (String × String)) (requestId now : String) (e : JsErr) :
    Except JsErr Response :=
  if scope.contains "body" then
    Except.ok ⟨500, hs,
      JVal.jobj
        [("error", JVal.jstr
           (if prod then
             "A medical service error occurred. Please try again or consult a healthcare professional."
            else errMsg e)),
         ("requestId", JVal.jstr requestId),
         ("timestamp", JVal.jstr now),
         ("medicalDisclaimer", JVal.jstr mdDisclaimerShort),
         ("emergencyNotice", JVal.jstr emergencyNote)]⟩
  else Except.error (JsErr.referenceError "body")

/-- `const «set:action,prompt,userId,...» = body` destructuring. -/
def destruct3 (b : JVal) :
    Except JsErr (Option JVal × Option JVal × Option JVal) :=
  match b with
  | JVal.jnull =>
    Except.error (JsErr.typeError
      "Cannot destructure property \x27action\x27 of \x27body\x27 as it is null.")
  | JVal.jobj kvs =>
    Except.ok (lookupKV kvs "action", lookupKV kvs "prompt", lookupKV kvs "userId")
  | _ => Except.ok (none, none, none)

def promptActions : List String :=
  ["clarify", "generate", "diagnose", "treatment_plan"]

/-- The agent.js handler (lines 615-790).  The left component is the
settled result of the returned promise (`Except.error` = the handler itself
rejected); the right component counts Clinical Llama / data-chat calls. -/
def handler (up : Up) (origin : Option String) (prod : Bool)
    (requestId now : String) (ev : Event) : Except JsErr Response × Nat :=
  let hs := allHeaders origin
  if ev.httpMethod = "OPTIONS" then
    (Except.ok ⟨200, hs, JVal.jstr ""⟩, 0)
  else if ¬ ev.httpMethod = "POST" then
    (Except.ok ⟨405, hs,
      JVal.jobj [("error", JVal.jstr "Method Not Allowed"),
                 ("requestId", JVal.jstr requestId),
                 ("medicalDisclaimer", JVal.jstr mdDisclaimerShort)]⟩, 0)
  else
    let raw :=
      match ev.body with
      | none => "\x7b\x7d"
      | some s => if s = "" then "\x7b\x7d" else s
    match parseJson raw with
    | none =>
      (Except.ok ⟨400, hs, err400Body requestId "Invalid JSON in request body"⟩, 0)
    | some b =>
      match destruct3 b with
      | Except.error e => (agentCatch catchScope prod hs requestId now e, 0)
      | Except.ok (action, prompt, userId) =>
        if jsFalsy action then
          (Except.ok ⟨400, hs, err400Body requestId "Missing required field: action"⟩, 0)
        else
          match validateMedicalAction (action.getD JVal.jnull) with
          | Except.error e => (agentCatch catchScope prod hs requestId now e, 0)
          | Except.ok _ =>
            if promptActions.any (fun a => jvalIsStr action a) then
              if jsFalsy prompt then
                (Except.ok ⟨400, hs, err400Body requestId "Missing required field: prompt"⟩, 0)
              else
                match validateMedicalPrompt prompt with
                | Except.error e => (agentCatch catchScope prod hs requestId now e, 0)
                | Except.ok vp =>
                  let res :=
                    if jvalIsStr action "clarify" then
                      (clarifyMedicalPrompt (up.clarifyRaw vp)).map JVal.jstr
                    else if jvalIsStr action "generate" then
                      generateMedicalPWA true (up.generateRaw vp)
                    else if jvalIsStr action "diagnose" then
                      provideDiagnosisSupport (up.diagnoseRaw vp)
                    else
                      generateTreatmentPlan (up.treatmentRaw vp)
                  match res with
                  | Except.ok content =>
                    (Except.ok ⟨200, hs, successBody requestId now content⟩, 1)
                  | Except.error e =>
                    (agentCatch catchScope prod hs requestId now e, 1)
            else
              if jsFalsy userId then
                (Except.ok ⟨400, hs, err400Body requestId "Missing required field: userId"⟩, 0)
              else
                match up.chatSession userId with
                | Except.ok content =>
                  (Except.ok ⟨200, hs, successBody requestId now content⟩, 1)
                | Except.error e =>
                  (agentCatch catchScope prod hs requestId now e, 1)

end AgentFn

namespace Srv01

open JsModel

/-- The Express-server revision's writeFiles (part_001 lines 265-273):
`function writeFiles(«set:html,js,manifest,sw,css»)`.  Destructuring the
parameter throws before the directory reset when the argument is
null/undefined; afterwards the directory is removed, recreated, and the
five files written in order with NO fallback for a missing css field. -/
def writeFiles (files : Option JVal) (fs : Part000.Fs) :
    Part000.Fs × Option JsErr :=
  match files with
  | none =>
    (fs, some (JsErr.typeError
      "Cannot destructure property \x27html\x27 of \x27undefined\x27 as it is undefined."))
  | some JVal.jnull =>
    (fs, some (JsErr.typeError
      "Cannot destructure property \x27html\x27 of \x27null\x27 as it is null."))
  | some v =>
    let r := Part000.writeSeq []
      [("index.html", lookupJV v "html"), ("app.js", lookupJV v "js"),
       ("manifest.json", lookupJV v "manifest"),
       ("service-worker.js", lookupJV v "sw"), ("style.css", lookupJV v "css")]
    (some r.1, r.2)

end Srv01

namespace UpstreamTime

/-- An axios request configuration, reduced to the fields that govern
waiting: the target url and the timeout option (absent = axios default 0,
wait forever). -/
structure AxiosConfig where
  url : String
  timeoutMs : Option Nat

/-- process.env.MINDSDB_API_URL || "https://llm.mdb.ai". -/
def mindsdbApiUrl (envUrl : Option String) : String :=
  envUrl.getD "https://llm.mdb.ai"

/-- The MindsDB client call in part_001 lines 375-390: `timeout: 60000`. -/
def callMindsDBConfig (envUrl : Option String) : AxiosConfig :=
  ⟨mindsdbApiUrl envUrl, some 60000⟩

/-- part_000's clarifyPrompt axios call (line 7): no timeout option. -/
def part000ClarifyConfig (envUrl : Option String) : AxiosConfig :=
  ⟨mindsdbApiUrl envUrl, none⟩

/-- part_000's generatePWA axios call (line 13): no timeout option. -/
def part000GenerateConfig (envUrl : Option String) : AxiosConfig :=
  ⟨mindsdbApiUrl envUrl, none⟩

/-- The camel revision's prompt-validate call (part_001 line 15):
no timeout option. -/
def camelValidateConfig (base : Option String) : AxiosConfig :=
  ⟨(base.getD "https://api.camel.ai/api/v1/") ++ "medical/prompts/validate", none⟩

/-- agent.js DataChatService.createIframe (line 97): `timeout: 30000`. -/
def dataChatIframeConfig (base : Option String) : AxiosConfig :=
  ⟨(base.getD "https://api.camel.ai/api/v1") ++ "/iframe/create", some 30000⟩

/-- ClinicalLlamaClient constructor (agent.js line 18): 120000 ms guard. -/
def clinicalLlamaTimeoutMs : Nat := 120000

/-- The behavior of one upstream attempt. -/
inductive Fate where
  | resolvesAfter : Nat → Fate
  | neverResolves : Fate

/-- When `await axios.post(cfg, ...)` settles against an upstream fate:
`some (t, timedOut)` means it settles at time t (timedOut marks a timeout
rejection); `none` means the await never settles. -/
def axiosCompletion (cfg : AxiosConfig) (f : Fate) : Option (Nat × Bool) :=
  match f, cfg.timeoutMs with
  | Fate.resolvesAfter t, some tmo =>
    if t ≤ tmo then some (t, false) else some (tmo, true)
  | Fate.resolvesAfter t, none => some (t, false)
  | Fate.neverResolves, some tmo => some (tmo, true)
  | Fate.neverResolves, none => none

/-- The Clinical Llama client (agent.js lines 21-70) wraps its spawned
process in setTimeout(kill, this.timeout), so the promise always settles:
at the process exit, or at the 120000 ms kill. -/
def clinicalCompletion (f : Fate) : Nat × Bool :=
  match f with
  | Fate.resolvesAfter t =>
    if t ≤ clinicalLlamaTimeoutMs then (t, false) else (clinicalLlamaTimeoutMs, true)
  | Fate.neverResolves => (clinicalLlamaTimeoutMs, true)

end UpstreamTime

namespace JsModel

/-- The backquote character (the only character the fence regex can touch). -/
def tickC : Char := Char.ofNat 96

/-- The special characters named by the escaping claim. -/
def criticalChars : List Char := ['&', '"', Char.ofNat 39, '<', '>']

end JsModel

open JsModel

/-- A concrete oracle for part_000 (used to evaluate closed scenarios). -/
def trivUp000 : Part000.Up :=
  ⟨fun _ => Except.ok "", fun _ => Except.ok JVal.jnull,
   Except.ok (), Except.ok "", Except.ok ""⟩

/-- A concrete oracle for the camel revision. -/
def trivUpCamel : CamelFn.Up :=
  ⟨fun _ => Except.ok JVal.jnull, fun _ => Except.ok JVal.jnull,
   fun _ => Except.ok JVal.jnull⟩

/-- A concrete oracle for the MindsDB revision. -/
def trivUpMinds : MindsFn.Up :=
  ⟨Except.ok (some "clarified"), Except.ok (some "generated")⟩

/-- A 30-character API key satisfying validateEnvironment. -/
def goodEnv : MindsFn.Env :=
  ⟨some "012345678901234567890123456789", none⟩

/-- A concrete oracle for the agent revision. -/
def trivUpAgent : AgentFn.Up :=
  ⟨fun _ => Except.ok "", fun _ => Except.ok "", fun _ => Except.ok "",
   fun _ => Except.ok "", fun _ => Except.ok JVal.jnull⟩

/-- A MindsDB oracle whose axios calls fail with a plain network error. -/
def failUpMinds : MindsFn.Up :=
  ⟨Except.error ⟨"socket hang up", none, none, none, ""⟩,
   Except.error ⟨"socket hang up", none, none, none, ""⟩⟩

/-- A camel oracle whose upstream calls reject with a plain Error whose
message happens to contain the word required. -/
def failUpCamel : CamelFn.Up :=
  ⟨fun _ => Except.error (thrownMsg "Prompt required"),
   fun _ => Except.error (thrownMsg "Prompt required"),
   fun _ => Except.error (thrownMsg "Prompt required")⟩

-- ===================================================================
-- Theorems: shared lemmas first, then one theorem per claim.
-- ===================================================================

theorem listStartsWith_self_append (p t : List Char) :
    listStartsWith p (p ++ t) = true := by
  induction p with
  | nil => rfl
  | cons c cs ih => simp [listStartsWith, ih]

theorem listStartsWith_mem {p l : List Char}
    (h : listStartsWith p l = true) : ∀ c ∈ p, c ∈ l := by
  induction p generalizing l with
  | nil => intro c hc; cases hc
  | cons a as ih =>
    cases l with
    | nil => simp [listStartsWith] at h
    | cons b bs =>
      unfold listStartsWith at h
      by_cases hab : a = b
      · subst hab
        rw [if_pos rfl] at h
        intro c hc
        rcases List.mem_cons.mp hc with hc | hc
        · subst hc; exact List.mem_cons_self _ _
        · exact List.mem_cons_of_mem _ (ih h c hc)
      · rw [if_neg hab] at h; cases h

theorem containsSubL_of_starts {pat l : List Char}
    (h : listStartsWith pat l = true) : containsSubL pat l = true := by
  cases l with
  | nil => simpa [containsSubL] using h
  | cons c cs => simp [containsSubL, h]

theorem containsSubL_cons {pat l : List Char} (c : Char)
    (h : containsSubL pat l = true) : containsSubL pat (c :: l) = true := by
  unfold containsSubL
  split
  · rfl
  · exact h

theorem containsSubL_append_left {pat : List Char} (s : List Char)
    {t : List Char} (h : containsSubL pat t = true) :
    containsSubL pat (s ++ t) = true := by
  induction s with
  | nil => simpa using h
  | cons c cs ih => exact containsSubL_cons c ih

theorem containsSubL_infix (pat a b : List Char) :
    containsSubL pat (a ++ (pat ++ b)) = true :=
  containsSubL_append_left a
    (containsSubL_of_starts (listStartsWith_self_append pat b))

theorem containsSubL_mem {pat l : List Char}
    (h : containsSubL pat l = true) : ∀ c ∈ pat, c ∈ l := by
  induction l with
  | nil =>
    cases pat with
    | nil => intro c hc; cases hc
    | cons p ps => simp [containsSubL, listStartsWith] at h
  | cons b bs ih =>
    unfold containsSubL at h
    split at h
    · next hs => exact listStartsWith_mem hs
    · intro c hc; exact List.mem_cons_of_mem _ (ih h c hc)

theorem joinComma_toList_infix {xs : List String} {f : String} (h : f ∈ xs) :
    ∃ a b : List Char, (joinComma xs).toList = a ++ (f.toList ++ b) := by
  induction xs with
  | nil => cases h
  | cons x rest ih =>
    cases rest with
    | nil =>
      have hx : f = x := by simpa using h
      subst hx
      exact ⟨[], [], by simp [joinComma]⟩
    | cons y ys =>
      rcases List.mem_cons.mp h with hf | hf
      · subst hf
        refine ⟨[], (", " ++ joinComma (y :: ys)).toList, ?_⟩
        show (f ++ ", " ++ joinComma (y :: ys)).data = [] ++ (f.data ++ (", " ++ joinComma (y :: ys)).data)
        simp [String.data_append]
      · rcases ih hf with ⟨a, b, hab⟩
        refine ⟨(x ++ ", ").toList ++ a, b, ?_⟩
        show (x ++ ", " ++ joinComma (y :: ys)).data = ((x ++ ", ").data ++ a) ++ (f.data ++ b)
        have : (joinComma (y :: ys)).data = a ++ (f.data ++ b) := hab
        simp [String.data_append, this]

/-- Substring containment of a member of the joined list, shifted under a
string prefix. -/
theorem containsSub_prefix_join {pre : String} {xs : List String} {f : String}
    (h : f ∈ xs) : containsSub (pre ++ joinComma xs) f = true := by
  rcases joinComma_toList_infix h with ⟨a, b, hab⟩
  have hab2 : (joinComma xs).data = a ++ (f.data ++ b) := hab
  unfold containsSub
  show containsSubL f.data (pre ++ joinComma xs).data = true
  rw [String.data_append, hab2, ← List.append_assoc]
  exact containsSubL_infix f.data (pre.data ++ a) b

theorem startsWith_fence7_false {c : Char} (cs : List Char)
    (hc : ¬ c = tickC) : listStartsWith fence7 (c :: cs) = false := by
  have h7 : fence7 = tickC :: "``json".toList := by decide
  rw [h7]
  unfold listStartsWith
  rw [if_neg (fun h => hc h.symm)]

theorem startsWith_fence3_false {c : Char} (cs : List Char)
    (hc : ¬ c = tickC) : listStartsWith fence3 (c :: cs) = false := by
  have h3 : fence3 = tickC :: "``".toList := by decide
  rw [h3]
  unfold listStartsWith
  rw [if_neg (fun h => hc h.symm)]

theorem stripAux_cons_ne {c : Char} {cs : List Char} (hc : ¬ c = tickC) :
    stripAux (c :: cs) = c :: stripAux cs := by
  rw [stripAux]
  rw [startsWith_fence7_false cs hc, startsWith_fence3_false cs hc]
  simp

theorem stripAux_append_no_tick {l : List Char}
    (hl : ∀ c ∈ l, ¬ c = tickC) (t : List Char) :
    stripAux (l ++ t) = l ++ stripAux t := by
  induction l with
  | nil => simp
  | cons c cs ih =>
    have hc : ¬ c = tickC := hl c (List.mem_cons_self _ _)
    have hcs : ∀ x ∈ cs, ¬ x = tickC := fun x hx => hl x (List.mem_cons_of_mem _ hx)
    rw [List.cons_append, stripAux_cons_ne hc, ih hcs]
    simp

theorem stripAux_nil : stripAux [] = [] := by
  rw [stripAux]

theorem stripAux_no_tick {l : List Char} (hl : ∀ c ∈ l, ¬ c = tickC) :
    stripAux l = l := by
  have := stripAux_append_no_tick hl []
  simpa [stripAux_nil] using this

theorem stripAux_fence3 : stripAux fence3 = [] := by
  have h0 : fence3 = tickC :: "``".toList := by decide
  rw [h0, stripAux]
  have h1 : listStartsWith fence7 (tickC :: "``".toList) = false := by decide
  have h2 : listStartsWith fence3 (tickC :: "``".toList) = true := by decide
  rw [h1, h2]
  simp
  rw [stripAux_nil]

theorem stripAux_fence7_append (t : List Char) :
    stripAux (fence7 ++ t) = stripAux t := by
  have h0 : fence7 ++ t = tickC :: ("``json".toList ++ t) := by
    have h : fence7 = tickC :: "``json".toList := by decide
    rw [h]; rfl
  rw [h0, stripAux]
  have h1 : listStartsWith fence7 (tickC :: ("``json".toList ++ t)) = true := by
    rw [← h0]; exact listStartsWith_self_append fence7 t
  rw [h1]
  simp

/-- The fence-stripping step recovers the original JSON text: for `j` free
of backquote characters, stripping "```json\n<j>\n```" leaves "\n<j>\n". -/
theorem stripFences_wrapped {j : String} (hj : ∀ c ∈ j.toList, ¬ c = tickC) :
    (stripFences ("```json\n" ++ j ++ "\n```")).toList =
      '\n' :: j.toList ++ ['\n'] := by
  unfold stripFences
  have hdecomp : ("```json\n" ++ j ++ "\n```").toList =
      fence7 ++ (['\n'] ++ (j.toList ++ ('\n' :: fence3))) := by
    show ("```json\n" ++ j ++ "\n```").data =
      fence7 ++ (['\n'] ++ (j.data ++ ('\n' :: fence3)))
    rw [String.data_append, String.data_append]
    have h1 : ("```json\n" : String).data = fence7 ++ ['\n'] := by decide
    have h2 : ("\n```" : String).data = '\n' :: fence3 := by decide
    rw [h1, h2]
    simp
  show (stripAux (("```json\n" ++ j ++ "\n```").toList)) = '\n' :: j.toList ++ ['\n']
  rw [hdecomp, stripAux_fence7_append]
  have hnl : ¬ '\n' = tickC := by decide
  rw [List.singleton_append, stripAux_cons_ne hnl, stripAux_append_no_tick hj,
    stripAux_cons_ne hnl, stripAux_fence3]
  simp

/-- Trimming is unaffected by one added newline at each end. -/
theorem trimL_wrap (l : List Char) :
    trimL ('\n' :: l ++ ['\n']) = trimL l := by
  unfold trimL
  have hnl : isWs '\n' = true := by decide
  rw [List.cons_append, List.dropWhile_cons, if_pos hnl]
  rw [List.dropWhile_append]
  by_cases he : (l.dropWhile isWs).isEmpty = true
  · rw [if_pos he]
    have h0 : List.dropWhile isWs ['\n'] = [] := by decide
    rw [h0]
    have h1 : l.dropWhile isWs = [] := by simpa using he
    rw [h1]
  · rw [if_neg he]
    rw [List.reverse_append]
    have : (['\n'] : List Char).reverse = ['\n'] := by decide
    rw [this, List.singleton_append, List.dropWhile_cons, if_pos hnl]

theorem escapeChar_len_pos (c : Char) : 1 ≤ (escapeChar c).toList.length := by
  unfold escapeChar
  split_ifs <;> first | decide | exact Nat.le.refl

theorem escapeL_length_ge (l : List Char) : l.length ≤ (escapeL l).length := by
  induction l with
  | nil => exact Nat.le.refl
  | cons c cs ih =>
    have h1 := escapeChar_len_pos c
    simp only [escapeL, List.length_append, List.length_cons]
    omega

theorem escapeChar_len_special {c : Char} (hc : c ∈ criticalChars) :
    4 ≤ (escapeChar c).toList.length := by
  simp [criticalChars] at hc
  rcases hc with rfl | rfl | rfl | rfl | rfl <;> decide

theorem escapeL_length_gt {l : List Char} {c : Char} (hm : c ∈ l)
    (hs : c ∈ criticalChars) : l.length < (escapeL l).length := by
  induction l with
  | nil => cases hm
  | cons a as ih =>
    rcases List.mem_cons.mp hm with rfl | hm2
    · have h4 := escapeChar_len_special hs
      have hge := escapeL_length_ge as
      simp only [escapeL, List.length_append, List.length_cons]
      omega
    · have h1 := escapeChar_len_pos a
      have := ih hm2
      simp only [escapeL, List.length_append, List.length_cons]
      omega

theorem escape_ne_self {p : String} {c : Char} (hm : c ∈ p.toList)
    (hs : c ∈ criticalChars) : ¬ escape p = p := by
  intro h
  have hdata : escapeL p.data = p.data := congrArg String.data h
  have := escapeL_length_gt (l := p.data) hm hs
  rw [hdata] at this
  exact Nat.lt_irrefl _ this

theorem escapeL_replicate_amp_len (n : Nat) :
    (escapeL (List.replicate n '&')).length = 5 * n := by
  induction n with
  | zero => rfl
  | succ k ih =>
    rw [List.replicate_succ]
    simp only [escapeL, List.length_append, ih]
    have h5 : (escapeChar '&').toList.length = 5 := by decide
    rw [h5]
    omega

theorem mem_escapeL_replicate_amp {c : Char} {n : Nat}
    (h : c ∈ escapeL (List.replicate n '&')) : c ∈ ("&amp;".toList) := by
  induction n with
  | zero => cases h
  | succ k ih =>
    rw [List.replicate_succ] at h
    simp only [escapeL] at h
    rcases List.mem_append.mp h with h1 | h2
    · have he : (escapeChar '&').toList = "&amp;".toList := by decide
      rw [he] at h1
      exact h1
    · exact ih h2

theorem dangerousTest_amp (n : Nat) :
    AgentFn.dangerousTest (escape (String.mk (List.replicate n '&'))) = false := by
  unfold AgentFn.dangerousTest
  rw [List.any_eq_false]
  intro phrase hp
  by_contra hcon
  have hc : containsSub (lcStr (escape (String.mk (List.replicate n '&')))) phrase = true := by
    revert hcon
    cases containsSub (lcStr (escape (String.mk (List.replicate n '&')))) phrase <;> simp
  have hsp : ' ' ∈ phrase.toList := by
    simp [AgentFn.dangerousPhrases] at hp
    rcases hp with rfl | rfl | rfl | rfl | rfl | rfl | rfl | rfl | rfl | rfl | rfl | rfl | rfl <;>
      decide
  have hmem : ' ' ∈ (lcStr (escape (String.mk (List.replicate n '&')))).toList :=
    containsSubL_mem hc ' ' hsp
  have hmem2 : ' ' ∈ (escape (String.mk (List.replicate n '&'))).toList.map lcChar := hmem
  rcases List.mem_map.mp hmem2 with ⟨c, hcmem, hlc⟩
  have hcm : c ∈ escapeL (List.replicate n '&') := hcmem
  have hamp : c ∈ ("&amp;".toList) := mem_escapeL_replicate_amp hcm
  simp [String.toList] at hamp
  rcases hamp with rfl | rfl | rfl | rfl | rfl <;> exact absurd hlc (by decide)

/-- Claim C1 (code_bug): for a POST request that throws after its body was
parsed (here: a valid action with a prompt shorter than 20 characters), the
agent.js handler does NOT return the structured JSON 500 error.  Its catch
block's second statement reads `body?.action`, but `body` is a let binding
scoped to the try block, so the catch itself throws a ReferenceError and
the handler rejects. -/
theorem C1_catch_block_raises :
    (AgentFn.handler trivUpAgent none false "rid" "t0"
      ⟨"POST", some "\x7b\"action\":\"clarify\",\"prompt\":\"short\"\x7d", []⟩).1
      = Except.error (JsErr.referenceError "body") := rfl

/-- Claim C7 counterexample: part_000's clarify call configures no axios
timeout, so against an upstream that never resolves the await never
settles; that call is not terminated by any configured bound, contrary to
the claim that no revision can hang indefinitely. -/
theorem C7_counterexample :
    UpstreamTime.axiosCompletion (UpstreamTime.part000ClarifyConfig none)
      UpstreamTime.Fate.neverResolves = none := rfl

/-- Claim C7 (amended): the MindsDB client (timeout: 60000) and the
Clinical Llama client (120000 ms kill guard) always settle, with a timeout
error no later than their bounds, but the part_000 and camel-revision axios
calls configure no timeout and hang forever on a never-resolving
upstream. -/
theorem C7_timeout_bounds :
    (∀ envUrl, UpstreamTime.axiosCompletion (UpstreamTime.callMindsDBConfig envUrl)
        UpstreamTime.Fate.neverResolves = some (60000, true))
    ∧ (∀ envUrl f, ¬ UpstreamTime.axiosCompletion
        (UpstreamTime.callMindsDBConfig envUrl) f = none)
    ∧ UpstreamTime.clinicalCompletion UpstreamTime.Fate.neverResolves = (120000, true)
    ∧ (∀ f, ∃ t b, UpstreamTime.clinicalCompletion f = (t, b) ∧ t ≤ 120000)
    ∧ (∀ envUrl, UpstreamTime.axiosCompletion (UpstreamTime.part000ClarifyConfig envUrl)
        UpstreamTime.Fate.neverResolves = none)
    ∧ (∀ base, UpstreamTime.axiosCompletion (UpstreamTime.camelValidateConfig base)
        UpstreamTime.Fate.neverResolves = none) := by
  refine ⟨fun _ => rfl, fun envUrl f => ?_, rfl, fun f => ?_, fun _ => rfl, fun _ => rfl⟩
  · cases f with
    | resolvesAfter t =>
      simp only [UpstreamTime.axiosCompletion, UpstreamTime.callMindsDBConfig]
      split <;> simp
    | neverResolves => simp [UpstreamTime.axiosCompletion, UpstreamTime.callMindsDBConfig]
  · cases f with
    | resolvesAfter t =>
      by_cases h : t ≤ UpstreamTime.clinicalLlamaTimeoutMs
      · exact ⟨t, false, by simp [UpstreamTime.clinicalCompletion, h],
          by simpa [UpstreamTime.clinicalLlamaTimeoutMs] using h⟩
      · have h2 : ¬ t ≤ 120000 := by
          simpa [UpstreamTime.clinicalLlamaTimeoutMs] using h
        exact ⟨120000, true,
          by simp [UpstreamTime.clinicalCompletion, UpstreamTime.clinicalLlamaTimeoutMs, h2],
          by omega⟩
    | neverResolves => exact ⟨120000, true, rfl, by omega⟩

/-- Claim C10: both writeFiles revisions rebuild the public directory from
scratch regardless of its previous contents; with all five fields present
the directory afterwards holds exactly the five expected files; part_000
silently writes an empty style.css when css is missing, whereas a missing
sw (part_000) or missing css (the Express revision of part_001) makes the
write throw a TypeError after the old contents were already destroyed and
the earlier files written — nothing is rolled back. -/
theorem C10_writeFiles :
    (∀ files fs1 fs2, Part000.writeFiles files fs1 = Part000.writeFiles files fs2)
    ∧ (∀ h j m sw css fs, ¬ css = "" →
        Part000.writeFiles (some (JVal.jobj
          [("html", JVal.jstr h), ("js", JVal.jstr j), ("manifest", JVal.jstr m),
           ("sw", JVal.jstr sw), ("css", JVal.jstr css)])) fs =
          (some [("index.html", h), ("app.js", j), ("manifest.json", m),
                 ("service-worker.js", sw), ("style.css", css)], none))
    ∧ (∀ h j m sw fs,
        Part000.writeFiles (some (JVal.jobj
          [("html", JVal.jstr h), ("js", JVal.jstr j), ("manifest", JVal.jstr m),
           ("sw", JVal.jstr sw)])) fs =
          (some [("index.html", h), ("app.js", j), ("manifest.json", m),
                 ("service-worker.js", sw), ("style.css", "")], none))
    ∧ (∀ h j m css fs,
        Part000.writeFiles (some (JVal.jobj
          [("html", JVal.jstr h), ("js", JVal.jstr j), ("manifest", JVal.jstr m),
           ("css", JVal.jstr css)])) fs =
          (some [("index.html", h), ("app.js", j), ("manifest.json", m)],
           some (JsErr.typeError
             "The \x22data\x22 argument must be of type string or an instance of Buffer, TypedArray, or DataView")))
    ∧ (∀ h j m sw fs,
        Srv01.writeFiles (some (JVal.jobj
          [("html", JVal.jstr h), ("js", JVal.jstr j), ("manifest", JVal.jstr m),
           ("sw", JVal.jstr sw)])) fs =
          (some [("index.html", h), ("app.js", j), ("manifest.json", m),
                 ("service-worker.js", sw)],
           some (JsErr.typeError
             "The \x22data\x22 argument must be of type string or an instance of Buffer, TypedArray, or DataView")))
    ∧ (∀ h j m sw css fs,
        Srv01.writeFiles (some (JVal.jobj
          [("html", JVal.jstr h), ("js", JVal.jstr j), ("manifest", JVal.jstr m),
           ("sw", JVal.jstr sw), ("css", JVal.jstr css)])) fs =
          (some [("index.html", h), ("app.js", j), ("manifest.json", m),
                 ("service-worker.js", sw), ("style.css", css)], none)) := by
  refine ⟨fun _ _ _ => rfl, ?_, fun _ _ _ _ _ => rfl, fun _ _ _ _ _ => rfl,
    fun _ _ _ _ _ => rfl, fun _ _ _ _ _ _ => rfl⟩
  intro h j m sw css fs hc
  have hcss : (css == "") = false := beq_eq_false_iff_ne.mpr hc
  simp [Part000.writeFiles, jsPropE, lookupKV, Part000.writeSeq,
    Part000.writeFileSync, Part000.insertFile, Part000.cssOrEmpty, jsFalsyV, hcss]

/-- Claim C10 witness: the part_000 write with all five fields present at a
concrete bundle and a pre-existing directory. -/
theorem C10_writeFiles_witness :
    Part000.writeFiles (some (JVal.jobj
      [("html", JVal.jstr "h"), ("js", JVal.jstr "j"), ("manifest", JVal.jstr "m"),
       ("sw", JVal.jstr "s"), ("css", JVal.jstr "c")])) (some [("old.txt", "o")]) =
      (some [("index.html", "h"), ("app.js", "j"), ("manifest.json", "m"),
             ("service-worker.js", "s"), ("style.css", "c")], none) :=
  C10_writeFiles.2.1 "h" "j" "m" "s" "c" (some [("old.txt", "o")]) (by decide)

/-- Claim C5 counterexample: in part_000 an OPTIONS request is treated like
any non-POST method and answered 405 with no CORS headers, not 200/204 as
the claim states for every handler. -/
theorem C5_counterexample :
    Part000.handler trivUp000 (some [("old.txt", "o")]) ⟨"OPTIONS", none, []⟩ =
      ⟨Except.ok ⟨405, [], JVal.jstr "Method Not Allowed"⟩,
       some [("old.txt", "o")], 0⟩ := rfl

/-- Claim C5 (amended): the MindsDB revision answers OPTIONS with 204 and
the agent revision with 200, both with CORS headers and zero upstream
calls; part_000 and the camel revision instead answer OPTIONS with 405.
In every revision a method that is neither POST nor OPTIONS gets 405
without any upstream call. -/
theorem C5_methods :
    (∀ env u dev, MindsFn.handler env u dev ⟨"OPTIONS", none, []⟩ =
      (⟨204, MindsFn.hdrs, JVal.jstr ""⟩, 0))
    ∧ (∀ up o p rid now, AgentFn.handler up o p rid now ⟨"OPTIONS", none, []⟩ =
      (Except.ok ⟨200, AgentFn.allHeaders o, JVal.jstr ""⟩, 0))
    ∧ ("Access-Control-Allow-Methods", "POST, OPTIONS") ∈ MindsFn.hdrs
    ∧ (∀ o, ("Access-Control-Allow-Methods", "POST, OPTIONS") ∈ AgentFn.allHeaders o)
    ∧ (∀ up fs, Part000.handler up fs ⟨"OPTIONS", none, []⟩ =
      ⟨Except.ok ⟨405, [], JVal.jstr "Method Not Allowed"⟩, fs, 0⟩)
    ∧ (∀ cu dev now, CamelFn.handler cu dev now ⟨"OPTIONS", none, []⟩ =
      (⟨405, CamelFn.hdrs405, JVal.jobj [("error", JVal.jstr "Method Not Allowed")]⟩, 0))
    ∧ (∀ m b, ¬ m = "POST" → ¬ m = "OPTIONS" →
        (∀ up fs, Part000.handler up fs ⟨m, b, []⟩ =
          ⟨Except.ok ⟨405, [], JVal.jstr "Method Not Allowed"⟩, fs, 0⟩)
        ∧ (∀ cu dev now, CamelFn.handler cu dev now ⟨m, b, []⟩ =
          (⟨405, CamelFn.hdrs405, JVal.jobj [("error", JVal.jstr "Method Not Allowed")]⟩, 0))
        ∧ (∀ env u dev, MindsFn.handler env u dev ⟨m, b, []⟩ =
          (⟨405, MindsFn.hdrs, JVal.jobj [("error", JVal.jstr "Method Not Allowed")]⟩, 0))
        ∧ (∀ up o p rid now, AgentFn.handler up o p rid now ⟨m, b, []⟩ =
          (Except.ok ⟨405, AgentFn.allHeaders o,
            JVal.jobj [("error", JVal.jstr "Method Not Allowed"),
                       ("requestId", JVal.jstr rid),
                       ("medicalDisclaimer", JVal.jstr AgentFn.mdDisclaimerShort)]⟩, 0))) := by
  refine ⟨fun _ _ _ => rfl, fun _ _ _ _ _ => rfl, by decide, fun o => ?_,
    fun _ _ => rfl, fun _ _ _ => rfl, fun m b hm1 hm2 => ?_⟩
  · simp [AgentFn.allHeaders, AgentFn.securityHeaders, AgentFn.corsHeaders]
  · refine ⟨fun up fs => ?_, fun cu dev now => ?_, fun env u dev => ?_,
      fun up o p rid now => ?_⟩
    · simp [Part000.handler, hm1]
    · simp [CamelFn.handler, hm1]
    · simp [MindsFn.handler, hm1, hm2]
    · simp [AgentFn.handler, hm1, hm2]

/-- Claim C5 witness: the generic non-POST non-OPTIONS clause at method
GET, for part_000 and the MindsDB revision. -/
theorem C5_methods_witness :
    Part000.handler trivUp000 none ⟨"GET", none, []⟩ =
      ⟨Except.ok ⟨405, [], JVal.jstr "Method Not Allowed"⟩, none, 0⟩
    ∧ MindsFn.handler goodEnv trivUpMinds false ⟨"GET", none, []⟩ =
      (⟨405, MindsFn.hdrs, JVal.jobj [("error", JVal.jstr "Method Not Allowed")]⟩, 0) := by
  have h := C5_methods.2.2.2.2.2.2 "GET" none (by decide) (by decide)
  exact ⟨h.1 trivUp000 none, h.2.2.1 goodEnv trivUpMinds false⟩

/-- Claim C6 counterexample: part_000 recognizes the action "write": at a
POST with action "write" the handler does not answer 400; it destroys the
existing public directory (a file-system side effect) and then fails with
the TypeError of writing an undefined field, answered as a 500. -/
theorem C6_counterexample :
    Part000.handler trivUp000 (some [("old.txt", "o")])
      ⟨"POST", some "\x7b\"action\":\"write\",\"prompt\":\"x\"\x7d", []⟩ =
      ⟨Except.ok ⟨500, [], JVal.jobj [("error", JVal.jstr
          "The \x22data\x22 argument must be of type string or an instance of Buffer, TypedArray, or DataView")]⟩,
       some [], 0⟩ := rfl

/-- Claim C6 (amended): in part_000 the recognized actions are clarify,
generate, write, zip, deploy and ipfs — only an action outside this set is
answered 400, with the file system untouched and no upstream call; write,
zip, deploy and ipfs have side effects.  In agent.js,
validateMedicalAction accepts the five actions clarify, generate,
diagnose, treatment_plan and create_chat_session and throws for anything
else — its accepted set is not \x7bclarify, generate\x7d. -/
theorem C6_unknown_action :
    (∀ up fs s kvs a,
      parseJson s = some (JVal.jobj kvs) →
      lookupKV kvs "action" = some (JVal.jstr a) →
      ¬ a = "clarify" → ¬ a = "generate" → ¬ a = "write" →
      ¬ a = "zip" → ¬ a = "deploy" → ¬ a = "ipfs" →
      Part000.handler up fs ⟨"POST", some s, []⟩ =
        ⟨Except.ok ⟨400, [], JVal.jobj [("error", JVal.jstr "Unknown action")]⟩, fs, 0⟩)
    ∧ (∀ s, ¬ s ∈ AgentFn.validActions →
      AgentFn.validateMedicalAction (JVal.jstr s) =
        Except.error (thrownMsg
          ("Invalid medical action. Must be one of: " ++ joinComma AgentFn.validActions)))
    ∧ (∀ s, s ∈ AgentFn.validActions →
      AgentFn.validateMedicalAction (JVal.jstr s) = Except.ok (JVal.jstr s)) := by
  refine ⟨?_, ?_, ?_⟩
  · intro up fs s kvs a hparse haction h1 h2 h3 h4 h5 h6
    have b1 : (a == "clarify") = false := beq_eq_false_iff_ne.mpr h1
    have b2 : (a == "generate") = false := beq_eq_false_iff_ne.mpr h2
    have b3 : (a == "write") = false := beq_eq_false_iff_ne.mpr h3
    have b4 : (a == "zip") = false := beq_eq_false_iff_ne.mpr h4
    have b5 : (a == "deploy") = false := beq_eq_false_iff_ne.mpr h5
    have b6 : (a == "ipfs") = false := beq_eq_false_iff_ne.mpr h6
    simp [Part000.handler, hparse, Part000.destructAP, haction, jvalIsStr,
      b1, b2, b3, b4, b5, b6]
  · intro s hs
    simp [AgentFn.validActions] at hs
    have hany : (AgentFn.validActions.any
        (fun a => jvalIsStr (some (JVal.jstr s)) a)) = false := by
      rw [List.any_eq_false]
      intro x hx
      simp [AgentFn.validActions] at hx
      rcases hx with rfl | rfl | rfl | rfl | rfl <;>
        simp [jvalIsStr, beq_eq_false_iff_ne] <;> tauto
    unfold AgentFn.validateMedicalAction
    rw [hany]
    simp
  · intro s hs
    simp [AgentFn.validActions] at hs
    rcases hs with rfl | rfl | rfl | rfl | rfl <;> rfl

/-- Claim C6 witness: the 400 branch of part_000 at the concrete unknown
action "publish", and validateMedicalAction at "diagnose" and "publish". -/
theorem C6_unknown_action_witness :
    Part000.handler trivUp000 none
      ⟨"POST", some "\x7b\"action\":\"publish\",\"prompt\":\"x\"\x7d", []⟩ =
      ⟨Except.ok ⟨400, [], JVal.jobj [("error", JVal.jstr "Unknown action")]⟩, none, 0⟩
    ∧ AgentFn.validateMedicalAction (JVal.jstr "diagnose") =
        Except.ok (JVal.jstr "diagnose")
    ∧ AgentFn.validateMedicalAction (JVal.jstr "publish") =
        Except.error (thrownMsg
          ("Invalid medical action. Must be one of: " ++ joinComma AgentFn.validActions)) := by
  refine ⟨?_, ?_, ?_⟩
  · exact C6_unknown_action.1 trivUp000 none _
      [("action", JVal.jstr "publish"), ("prompt", JVal.jstr "x")] "publish"
      (by rfl) (by rfl) (by decide) (by decide) (by decide) (by decide) (by decide) (by decide)
  · exact C6_unknown_action.2.2 "diagnose" (by decide)
  · exact C6_unknown_action.2.1 "publish" (by decide)

/-- Claim C4 counterexample: the camel revision answers a POST whose body
lacks `action` with status 400, but its body is only an error message — it
contains no `success` field at all, contrary to the claim. -/
theorem C4_counterexample :
    CamelFn.handler trivUpCamel false "t0"
      ⟨"POST", some "\x7b\"prompt\":\"x\"\x7d", []⟩ =
      (⟨400, CamelFn.hdrs, JVal.jobj [("error", JVal.jstr "Missing action or prompt")]⟩, 0)
    ∧ lookupJV (JVal.jobj [("error", JVal.jstr "Missing action or prompt")]) "success" =
      none :=
  ⟨rfl, rfl⟩

/-- Claim C4 (amended): every revision answers a POST body missing `action`
or `prompt` with status 400, but only the MindsDB revision's body carries
success:false; the camel revision and agent.js return plain error bodies
without a `success` field (agent.js checks `prompt` only for the four
prompt-carrying actions). -/
theorem C4_missing_fields :
    (∀ cu dev now s kvs,
      parseJson s = some (JVal.jobj kvs) →
      (jsFalsy (lookupKV kvs "action") || jsFalsy (lookupKV kvs "prompt")) = true →
      CamelFn.handler cu dev now ⟨"POST", some s, []⟩ =
        (⟨400, CamelFn.hdrs,
          JVal.jobj [("error", JVal.jstr "Missing action or prompt")]⟩, 0))
    ∧ (∀ env u dev s kvs,
      parseJson s = some (JVal.jobj kvs) →
      (jsFalsy (lookupKV kvs "action") || jsFalsy (lookupKV kvs "prompt")) = true →
      (MindsFn.handler env u dev ⟨"POST", some s, []⟩).1.statusCode = 400
      ∧ lookupJV (MindsFn.handler env u dev ⟨"POST", some s, []⟩).1.body "success" =
          some (JVal.jbool false))
    ∧ (∀ up o p rid now s kvs,
      parseJson s = some (JVal.jobj kvs) →
      jsFalsy (lookupKV kvs "action") = true →
      AgentFn.handler up o p rid now ⟨"POST", some s, []⟩ =
        (Except.ok ⟨400, AgentFn.allHeaders o,
          AgentFn.err400Body rid "Missing required field: action"⟩, 0))
    ∧ (∀ up o p rid now s kvs,
      parseJson s = some (JVal.jobj kvs) →
      lookupKV kvs "action" = some (JVal.jstr "clarify") →
      jsFalsy (lookupKV kvs "prompt") = true →
      AgentFn.handler up o p rid now ⟨"POST", some s, []⟩ =
        (Except.ok ⟨400, AgentFn.allHeaders o,
          AgentFn.err400Body rid "Missing required field: prompt"⟩, 0))
    ∧ (∀ rid msg, lookupJV (AgentFn.err400Body rid msg) "success" = none) := by
  refine ⟨?_, ?_, ?_, ?_, fun _ _ => rfl⟩
  · intro cu dev now s kvs hparse hfal
    simp [CamelFn.handler, hparse, CamelFn.destructAPO, hfal]
  · intro env u dev s kvs hparse hfal
    have hs : ¬ s = "" := by
      intro h; subst h
      rw [show parseJson "" = none from rfl] at hparse
      cases hparse
    have hres : MindsFn.handler env u dev ⟨"POST", some s, []⟩ =
        (MindsFn.catchResp dev (thrownMsg "Action and prompt required"), 0) := by
      simp [MindsFn.handler, hparse, Part000.destructAP, hfal, hs]
    rw [hres]
    exact ⟨rfl, rfl⟩
  · intro up o p rid now s kvs hparse hfa
    have hs : ¬ s = "" := by
      intro h; subst h
      rw [show parseJson "" = none from rfl] at hparse
      cases hparse
    simp [AgentFn.handler, hparse, AgentFn.destruct3, hfa, hs]
  · intro up o p rid now s kvs hparse haction hfp
    have hs : ¬ s = "" := by
      intro h; subst h
      rw [show parseJson "" = none from rfl] at hparse
      cases hparse
    have hfa : jsFalsy (lookupKV kvs "action") = false := by rw [haction]; rfl
    simp [AgentFn.handler, hparse, AgentFn.destruct3, haction, hfa, hfp, hs,
      AgentFn.validateMedicalAction, AgentFn.validActions,
      jvalIsStr, AgentFn.promptActions]
    exact fun h => absurd h (by decide)

/-- Claim C4 witness: the camel, MindsDB and agent branches at a concrete
POST body missing `action`, and the agent branch at a body whose action is
clarify but whose prompt is missing. -/
theorem C4_missing_fields_witness :
    CamelFn.handler trivUpCamel true "t1" ⟨"POST", some "\x7b\"prompt\":\"y\"\x7d", []⟩ =
      (⟨400, CamelFn.hdrs,
        JVal.jobj [("error", JVal.jstr "Missing action or prompt")]⟩, 0)
    ∧ (MindsFn.handler goodEnv trivUpMinds false
        ⟨"POST", some "\x7b\"prompt\":\"y\"\x7d", []⟩).1.statusCode = 400
    ∧ AgentFn.handler trivUpAgent none false "r1" "t1"
        ⟨"POST", some "\x7b\"prompt\":\"y\"\x7d", []⟩ =
      (Except.ok ⟨400, AgentFn.allHeaders none,
        AgentFn.err400Body "r1" "Missing required field: action"⟩, 0)
    ∧ AgentFn.handler trivUpAgent none false "r1" "t1"
        ⟨"POST", some "\x7b\"action\":\"clarify\"\x7d", []⟩ =
      (Except.ok ⟨400, AgentFn.allHeaders none,
        AgentFn.err400Body "r1" "Missing required field: prompt"⟩, 0) := by
  refine ⟨?_, ?_, ?_, ?_⟩
  · exact C4_missing_fields.1 trivUpCamel true "t1" _ [("prompt", JVal.jstr "y")]
      (by rfl) (by rfl)
  · exact (C4_missing_fields.2.1 goodEnv trivUpMinds false _ [("prompt", JVal.jstr "y")]
      (by rfl) (by rfl)).1
  · exact C4_missing_fields.2.2.1 trivUpAgent none false "r1" "t1" _
      [("prompt", JVal.jstr "y")] (by rfl) (by rfl)
  · exact C4_missing_fields.2.2.2.1 trivUpAgent none false "r1" "t1" _
      [("action", JVal.jstr "clarify")] (by rfl) (by rfl) (by rfl)

/-- Claim C8 counterexample: the camel revision's response builder maps a
plain error whose message contains "required" to 500, not 400 — the
substring-to-status mapping is not shared by every revision's error
path. -/
theorem C8_counterexample :
    containsSub (errMsg (thrownMsg "Prompt required")) "required" = true
    ∧ (CamelFn.catchResp false "t0" (thrownMsg "Prompt required")).statusCode = 500
    ∧ lookupJV (CamelFn.catchResp false "t0" (thrownMsg "Prompt required")).body
        "error" = some (JVal.jstr "Internal Server Error") :=
  ⟨rfl, rfl, rfl⟩

/-- Claim C8 (amended): the substring mapping (message contains
"Not Allowed" maps to 405, else "required" maps to 400, else 500) is the
MindsDB revision's policy, applied to whatever message reaches its catch —
including the "API request failed: ..." wrapper around upstream failures —
with success:false in the body; the camel revision's catch instead takes
the status from err.response (500 for plain errors) and replaces the
message with a fixed string, ignoring substrings. -/
theorem C8_status_mapping :
    (∀ dev e, (MindsFn.catchResp dev e).statusCode =
        (if containsSub (errMsg e) "Not Allowed" then 405
         else if containsSub (errMsg e) "required" then 400 else 500)
      ∧ lookupJV (MindsFn.catchResp dev e).body "success" = some (JVal.jbool false))
    ∧ (∀ env u dev s kvs je,
      parseJson s = some (JVal.jobj kvs) →
      lookupKV kvs "action" = some (JVal.jstr "clarify") →
      jsFalsy (lookupKV kvs "prompt") = false →
      MindsFn.validateEnvironment env = Except.ok () →
      u.clarifyCall = Except.error je →
      MindsFn.handler env u dev ⟨"POST", some s, []⟩ =
        (MindsFn.catchResp dev (thrownMsg ("API request failed: " ++ je.message)), 1))
    ∧ (∀ dev now m st,
      (CamelFn.catchResp dev now (JsErr.thrown ⟨m, none, none, none, st⟩)).statusCode = 500
      ∧ lookupJV (CamelFn.catchResp dev now (JsErr.thrown ⟨m, none, none, none, st⟩)).body
          "error" = some (JVal.jstr "Internal Server Error"))
    ∧ (∀ cu dev now s kvs m st,
      parseJson s = some (JVal.jobj kvs) →
      lookupKV kvs "action" = some (JVal.jstr "clarify") →
      jsFalsy (lookupKV kvs "prompt") = false →
      cu.clarify (lookupKV kvs "prompt") =
        Except.error (JsErr.thrown ⟨m, none, none, none, st⟩) →
      CamelFn.handler cu dev now ⟨"POST", some s, []⟩ =
        (CamelFn.catchResp dev now (JsErr.thrown ⟨m, none, none, none, st⟩), 1)) := by
  refine ⟨fun dev e => ⟨rfl, rfl⟩, ?_, fun dev now m st => ⟨rfl, rfl⟩, ?_⟩
  · intro env u dev s kvs je hparse haction hfp henv hcall
    have hs : ¬ s = "" := by
      intro h; subst h
      rw [show parseJson "" = none from rfl] at hparse
      cases hparse
    have hfa : jsFalsy (lookupKV kvs "action") = false := by rw [haction]; rfl
    have henvok : MindsFn.envOk env = true := by
      unfold MindsFn.envOk; rw [henv]
    simp [MindsFn.handler, hparse, Part000.destructAP, hfa, hfp, hs, haction,
      jvalIsStr, MindsFn.clarifyPrompt, MindsFn.callMindsDBAPI, henv, hcall,
      henvok, Except.map]
    decide
  · intro cu dev now s kvs m st hparse haction hfp hcall
    have hs : ¬ s = "" := by
      intro h; subst h
      rw [show parseJson "" = none from rfl] at hparse
      cases hparse
    have hfa : jsFalsy (lookupKV kvs "action") = false := by rw [haction]; rfl
    simp [CamelFn.handler, hparse, CamelFn.destructAPO, hfa, hfp, haction,
      jvalIsStr, hcall]
    decide

/-- Claim C8 witness: the MindsDB pipeline at a failing upstream (plain
network error, no substring match, status 500 with success:false) and the
camel pipeline at an upstream error whose message contains "required"
(still status 500). -/
theorem C8_status_mapping_witness :
    MindsFn.handler goodEnv failUpMinds false
      ⟨"POST", some "\x7b\"action\":\"clarify\",\"prompt\":\"x\"\x7d", []⟩ =
      (MindsFn.catchResp false (thrownMsg "API request failed: socket hang up"), 1)
    ∧ (MindsFn.catchResp false (thrownMsg "API request failed: socket hang up")).statusCode
        = 500
    ∧ CamelFn.handler failUpCamel false "t0"
        ⟨"POST", some "\x7b\"action\":\"clarify\",\"prompt\":\"x\"\x7d", []⟩ =
      (CamelFn.catchResp false "t0" (JsErr.thrown ⟨"Prompt required", none, none, none, ""⟩), 1)
    ∧ (CamelFn.catchResp false "t0"
        (JsErr.thrown ⟨"Prompt required", none, none, none, ""⟩)).statusCode = 500 := by
  refine ⟨?_, ?_, ?_, ?_⟩
  · exact C8_status_mapping.2.1 goodEnv failUpMinds false _
      [("action", JVal.jstr "clarify"), ("prompt", JVal.jstr "x")]
      ⟨"socket hang up", none, none, none, ""⟩ (by rfl) (by rfl) (by rfl) (by rfl) (by rfl)
  · exact ((C8_status_mapping.1 false
      (thrownMsg "API request failed: socket hang up")).1).trans (by rfl)
  · exact C8_status_mapping.2.2.2 failUpCamel false "t0" _
      [("action", JVal.jstr "clarify"), ("prompt", JVal.jstr "x")]
      "Prompt required" "" (by rfl) (by rfl) (by rfl) (by rfl)
  · exact (C8_status_mapping.2.2.1 false "t0" "Prompt required" "").1

/-- Claim C2 counterexample: for upstream JSON missing exactly the sw
field, the MindsDB revision's generatePWA does not report an error naming
sw: the internal "Missing fields: sw" error is swallowed by the
surrounding catch and the caller sees only "Invalid PWA structure
received", which does not contain "sw". -/
theorem C2_counterexample :
    MindsFn.extractCaught
      "\x7b\"html\":\"<html></html>\",\"js\":\"x\",\"manifest\":\"y\",\"css\":\"z\"\x7d" =
      Except.error (thrownMsg "Invalid PWA structure received")
    ∧ containsSub "Invalid PWA structure received" "sw" = false := by
  constructor
  · have h1 : stripAux
        ("\x7b\"html\":\"<html></html>\",\"js\":\"x\",\"manifest\":\"y\",\"css\":\"z\"\x7d").toList =
        ("\x7b\"html\":\"<html></html>\",\"js\":\"x\",\"manifest\":\"y\",\"css\":\"z\"\x7d").toList :=
      stripAux_no_tick (by decide)
    have hstrip : stripFences
        "\x7b\"html\":\"<html></html>\",\"js\":\"x\",\"manifest\":\"y\",\"css\":\"z\"\x7d" =
        "\x7b\"html\":\"<html></html>\",\"js\":\"x\",\"manifest\":\"y\",\"css\":\"z\"\x7d" := by
      unfold stripFences
      rw [h1]
      rfl
    unfold MindsFn.extractCaught MindsFn.extractTryBody
    rw [hstrip]
    rfl
  · rfl

/-- Claim C2 (amended): the MindsDB revision's internal field check builds
an error naming every missing field, but the surrounding catch replaces
any failure with the generic "Invalid PWA structure received", so the
caller's error names none of them; the agent revision instead reports
exactly the FIRST missing field in the order html, js, manifest, sw, css
(so an object missing exactly sw is reported as missing sw, and the
"Failed to generate medical PWA: ..." wrapper keeps that name visible). -/
theorem C2_schema_validation :
    (∀ r f, f ∈ MindsFn.requiredFields → jsFalsy (lookupJV r f) = true →
      ¬ r = JVal.jnull →
      MindsFn.validateFields r =
        Except.error (thrownMsg ("Missing fields: " ++ joinComma (MindsFn.missingOf r)))
      ∧ containsSub ("Missing fields: " ++ joinComma (MindsFn.missingOf r)) f = true)
    ∧ (∀ s r, parseJson (jsTrim (stripFences s)) = some r →
      ¬ MindsFn.missingOf r = [] →
      MindsFn.extractCaught s = Except.error (thrownMsg "Invalid PWA structure received"))
    ∧ (∀ r, jsFalsy (lookupJV r "html") = false → jsFalsy (lookupJV r "js") = false →
      jsFalsy (lookupJV r "manifest") = false → jsFalsy (lookupJV r "sw") = true →
      AgentFn.fieldCheck r =
        Except.error (thrownMsg "Missing required medical PWA field: sw"))
    ∧ (∀ pre m : String, containsSub (pre ++ m) m = true) := by
  refine ⟨?_, ?_, ?_, ?_⟩
  · intro r f hf hmiss hnn
    have hmem : f ∈ MindsFn.missingOf r := List.mem_filter.mpr ⟨hf, hmiss⟩
    have hne : (MindsFn.missingOf r).isEmpty = false := by
      cases h' : (MindsFn.missingOf r).isEmpty
      · rfl
      · rw [List.isEmpty_iff.mp h'] at hmem
        cases hmem
    constructor
    · cases r with
      | jnull => exact absurd rfl hnn
      | jstr s => simp [MindsFn.validateFields, hne]
      | jnum s => simp [MindsFn.validateFields, hne]
      | jbool b => simp [MindsFn.validateFields, hne]
      | jarr l => simp [MindsFn.validateFields, hne]
      | jobj kvs => simp [MindsFn.validateFields, hne]
    · exact containsSub_prefix_join hmem
  · intro s r hp hm
    unfold MindsFn.extractCaught MindsFn.extractTryBody
    rw [hp]
    have hie : (MindsFn.missingOf r).isEmpty = false := by
      cases h' : (MindsFn.missingOf r).isEmpty
      · rfl
      · exact absurd (List.isEmpty_iff.mp h') hm
    cases r with
    | jnull => rfl
    | jstr s2 => simp [MindsFn.validateFields, hie]
    | jnum s2 => simp [MindsFn.validateFields, hie]
    | jbool b => simp [MindsFn.validateFields, hie]
    | jarr l => simp [MindsFn.validateFields, hie]
    | jobj kvs => simp [MindsFn.validateFields, hie]
  · intro r hh hj hm2 hsw
    cases r with
    | jobj kvs =>
      simp [AgentFn.fieldCheck, MindsFn.requiredFields, List.find?, hh, hj, hm2, hsw]
    | jnull => simp [lookupJV, jsFalsy] at hh
    | jstr s2 => simp [lookupJV, jsFalsy] at hh
    | jnum s2 => simp [lookupJV, jsFalsy] at hh
    | jbool b => simp [lookupJV, jsFalsy] at hh
    | jarr l => simp [lookupJV, jsFalsy] at hh
  · intro pre m
    unfold containsSub
    have h := containsSubL_infix m.data pre.data []
    rw [List.append_nil] at h
    have hd : (pre ++ m).data = pre.data ++ m.data := String.data_append pre m
    show containsSubL m.data (pre ++ m).data = true
    rw [hd]
    exact h

/-- Claim C2 witness: the amended statement at the concrete object with
html, js, manifest, css present and sw missing. -/
theorem C2_schema_validation_witness :
    MindsFn.validateFields (JVal.jobj
      [("html", JVal.jstr "<html></html>"), ("js", JVal.jstr "x"),
       ("manifest", JVal.jstr "y"), ("css", JVal.jstr "z")]) =
      Except.error (thrownMsg ("Missing fields: " ++ joinComma (MindsFn.missingOf
        (JVal.jobj
          [("html", JVal.jstr "<html></html>"), ("js", JVal.jstr "x"),
           ("manifest", JVal.jstr "y"), ("css", JVal.jstr "z")]))))
    ∧ AgentFn.fieldCheck (JVal.jobj
      [("html", JVal.jstr "<html></html>"), ("js", JVal.jstr "x"),
       ("manifest", JVal.jstr "y"), ("css", JVal.jstr "z")]) =
      Except.error (thrownMsg "Missing required medical PWA field: sw")
    ∧ containsSub ("Failed to generate medical PWA: " ++
        "Missing required medical PWA field: sw")
        "Missing required medical PWA field: sw" = true := by
  refine ⟨?_, ?_, ?_⟩
  · exact (C2_schema_validation.1 _ "sw" (by decide) (by decide) (by simp)).1
  · exact C2_schema_validation.2.2.1 _ (by decide) (by decide) (by decide) (by decide)
  · exact C2_schema_validation.2.2.2 "Failed to generate medical PWA: "
      "Missing required medical PWA field: sw"

/-- Claim C9: every prompt accepted by validateMedicalPrompt is returned in
HTML-entity-escaped form with the 20-3000 bounds checked on the raw input;
any prompt containing one of & " \x27 < > is altered by the escaping; and
the escaped string actually forwarded can exceed 3000 characters (a raw
prompt of 3000 ampersands is accepted and escapes to 15000 characters). -/
theorem C9_prompt_escaping :
    (∀ v t, AgentFn.validateMedicalPrompt v = Except.ok t →
      ∃ p, v = some (JVal.jstr p) ∧ t = escape p ∧ 20 ≤ p.length ∧ p.length ≤ 3000)
    ∧ (∀ p c, c ∈ p.toList → c ∈ criticalChars → ¬ escape p = p)
    ∧ AgentFn.validateMedicalPrompt
        (some (JVal.jstr (String.mk (List.replicate 3000 '&')))) =
        Except.ok (escape (String.mk (List.replicate 3000 '&')))
    ∧ 3000 < (escape (String.mk (List.replicate 3000 '&'))).length := by
  refine ⟨?_, fun p c hm hs => escape_ne_self hm hs, ?_, ?_⟩
  · intro v t h
    cases v with
    | none => simp [AgentFn.validateMedicalPrompt] at h
    | some w =>
      cases w with
      | jstr p =>
        simp only [AgentFn.validateMedicalPrompt] at h
        split_ifs at h with h1 h2 h3 h4
        all_goals simp at h
        exact ⟨p, rfl, h.symm, by omega, by omega⟩
      | jnum s => simp [AgentFn.validateMedicalPrompt] at h
      | jbool b => simp [AgentFn.validateMedicalPrompt] at h
      | jnull => simp [AgentFn.validateMedicalPrompt] at h
      | jarr l => simp [AgentFn.validateMedicalPrompt] at h
      | jobj kvs => simp [AgentFn.validateMedicalPrompt] at h
  · have hlen : (String.mk (List.replicate 3000 '&')).length = 3000 := by
      rw [String.length_mk, List.length_replicate]
    have hne : ¬ (String.mk (List.replicate 3000 '&')) = "" := by
      intro he
      rw [he] at hlen
      exact absurd hlen (by decide)
    simp only [AgentFn.validateMedicalPrompt]
    rw [if_neg (fun hq => hne (beq_iff_eq.mp hq))]
    rw [if_neg (by rw [hlen]; omega)]
    rw [if_neg (by rw [hlen]; omega)]
    rw [if_neg (by rw [dangerousTest_amp 3000]; exact fun hq => absurd hq (by decide))]
  · have h1 : (escape (String.mk (List.replicate 3000 '&'))).length =
        (escapeL (List.replicate 3000 '&')).length := rfl
    rw [h1, escapeL_replicate_amp_len]
    omega

/-- Claim C9 witness: a concrete accepted prompt containing an ampersand,
shown to come back escaped and altered. -/
theorem C9_prompt_escaping_witness :
    (∃ p, (some (JVal.jstr "track patient data & symptoms") : Option JVal) =
        some (JVal.jstr p) ∧
      escape "track patient data & symptoms" = escape p ∧
      20 ≤ p.length ∧ p.length ≤ 3000)
    ∧ ¬ escape "track patient data & symptoms" = "track patient data & symptoms" := by
  constructor
  · exact C9_prompt_escaping.1 (some (JVal.jstr "track patient data & symptoms"))
      (escape "track patient data & symptoms") (by rfl)
  · exact C9_prompt_escaping.2.1 "track patient data & symptoms" '&'
      (by decide) (by decide)

/-- Claim C3 counterexample: on upstream text containing no JSON at all
("hello"), neither extractor returns the cleaned text unchanged — the
MindsDB revision fails with "Invalid PWA structure received" and the agent
revision with "No valid JSON found in Clinical Llama response". -/
theorem C3_counterexample :
    MindsFn.extractCaught "hello" =
      Except.error (thrownMsg "Invalid PWA structure received")
    ∧ AgentFn.generateMedicalPWA true (Except.ok "hello") =
      Except.error (thrownMsg
        "Failed to generate medical PWA: No valid JSON found in Clinical Llama response")
    ∧ ¬ MindsFn.extractCaught "hello" =
        Except.ok (JVal.jstr (jsTrim (stripFences "hello"))) := by
  have h1 : stripAux ("hello").toList = ("hello").toList :=
    stripAux_no_tick (by decide)
  have hstrip : stripFences "hello" = "hello" := by
    unfold stripFences
    rw [h1]
    rfl
  have hmain : MindsFn.extractCaught "hello" =
      Except.error (thrownMsg "Invalid PWA structure received") := by
    unfold MindsFn.extractCaught MindsFn.extractTryBody
    rw [hstrip]
    rfl
  refine ⟨hmain, rfl, ?_⟩
  rw [hmain]
  simp

/-- Claim C3 (amended): for a fenced well-formed JSON object (no stray
backquotes) the MindsDB extractor strips the fences, recovering exactly
the original JSON text, and returns the directly parsed object — all field
values unchanged; the agent extractor takes the outermost brace span (shown
at a concrete fenced bundle, where the five fields come back verbatim and
only a reactComponent default is added).  On text without a JSON object
both extractors fail with an error instead of returning the cleaned text. -/
theorem C3_extractor :
    (∀ j, (∀ c ∈ j.toList, ¬ c = tickC) →
      jsTrim (stripFences ("```json\n" ++ j ++ "\n```")) = jsTrim j)
    ∧ (∀ j obj, (∀ c ∈ j.toList, ¬ c = tickC) →
      parseJson (jsTrim j) = some obj →
      MindsFn.missingOf obj = [] →
      MindsFn.extractCaught ("```json\n" ++ j ++ "\n```") = Except.ok obj)
    ∧ (AgentFn.generateMedicalPWA true (Except.ok
        "```json\n\x7b\"html\":\"<html></html>\",\"js\":\"x\",\"manifest\":\"\x7b\\\"name\\\":\\\"A\\\",\\\"description\\\":\\\"B\\\"\x7d\",\"sw\":\"s\",\"css\":\"c\"\x7d\n```") =
      Except.ok (JVal.jobj
        [("html", JVal.jstr "<html></html>"), ("js", JVal.jstr "x"),
         ("manifest", JVal.jstr "\x7b\"name\":\"A\",\"description\":\"B\"\x7d"),
         ("sw", JVal.jstr "s"), ("css", JVal.jstr "c"),
         ("reactComponent", JVal.jstr AgentFn.reactDataChatComponent)]))
    ∧ (∀ s, parseJson (jsTrim (stripFences s)) = none →
      MindsFn.extractCaught s =
        Except.error (thrownMsg "Invalid PWA structure received"))
    ∧ (∀ s, braceSpan s.toList = none →
      AgentFn.generateMedicalPWA true (Except.ok s) =
        Except.error (thrownMsg
          "Failed to generate medical PWA: No valid JSON found in Clinical Llama response")) := by
  have hmain : ∀ j : String, (∀ c ∈ j.toList, ¬ c = tickC) →
      jsTrim (stripFences ("```json\n" ++ j ++ "\n```")) = jsTrim j := by
    intro j hj
    have hs := stripFences_wrapped hj
    unfold jsTrim
    rw [hs, trimL_wrap]
  refine ⟨hmain, ?_, by rfl, ?_, ?_⟩
  · intro j obj hj hp hm
    unfold MindsFn.extractCaught MindsFn.extractTryBody
    rw [hmain j hj, hp]
    cases obj with
    | jnull =>
      have : ¬ MindsFn.missingOf JVal.jnull = [] := by decide
      exact absurd hm this
    | jstr s2 =>
      have hie : (MindsFn.missingOf (JVal.jstr s2)).isEmpty = true := by rw [hm]; rfl
      simp [MindsFn.validateFields, hie]
    | jnum s2 =>
      have hie : (MindsFn.missingOf (JVal.jnum s2)).isEmpty = true := by rw [hm]; rfl
      simp [MindsFn.validateFields, hie]
    | jbool b =>
      have hie : (MindsFn.missingOf (JVal.jbool b)).isEmpty = true := by rw [hm]; rfl
      simp [MindsFn.validateFields, hie]
    | jarr l =>
      have hie : (MindsFn.missingOf (JVal.jarr l)).isEmpty = true := by rw [hm]; rfl
      simp [MindsFn.validateFields, hie]
    | jobj kvs =>
      have hie : (MindsFn.missingOf (JVal.jobj kvs)).isEmpty = true := by rw [hm]; rfl
      simp [MindsFn.validateFields, hie]
  · intro s hp
    unfold MindsFn.extractCaught MindsFn.extractTryBody
    rw [hp]
  · intro s hb
    have hbody : AgentFn.generateTryBody true s =
        Except.error (thrownMsg "No valid JSON found in Clinical Llama response") := by
      unfold AgentFn.generateTryBody
      rw [hb]
    show (match AgentFn.generateTryBody true s with
      | Except.error e =>
        Except.error (thrownMsg ("Failed to generate medical PWA: " ++ errMsg e))
      | Except.ok v => (Except.ok v : Except JsErr JVal)) =
      Except.error (thrownMsg
        "Failed to generate medical PWA: No valid JSON found in Clinical Llama response")
    rw [hbody]
    rfl

/-- Claim C3 witness: the MindsDB extractor at a concrete fenced bundle
returns the parsed object, and the agent extractor fails on brace-free
text. -/
theorem C3_extractor_witness :
    MindsFn.extractCaught
      "```json\n\x7b\"html\":\"h\",\"js\":\"j\",\"manifest\":\"m\",\"sw\":\"s\",\"css\":\"c\"\x7d\n```" =
      Except.ok (JVal.jobj
        [("html", JVal.jstr "h"), ("js", JVal.jstr "j"), ("manifest", JVal.jstr "m"),
         ("sw", JVal.jstr "s"), ("css", JVal.jstr "c")])
    ∧ AgentFn.generateMedicalPWA true (Except.ok "no json here") =
      Except.error (thrownMsg
        "Failed to generate medical PWA: No valid JSON found in Clinical Llama response") := by
  constructor
  · exact C3_extractor.2.1
      "\x7b\"html\":\"h\",\"js\":\"j\",\"manifest\":\"m\",\"sw\":\"s\",\"css\":\"c\"\x7d"
      (JVal.jobj
        [("html", JVal.jstr "h"), ("js", JVal.jstr "j"), ("manifest", JVal.jstr "m"),
         ("sw", JVal.jstr "s"), ("css", JVal.jstr "c")])
      (by decide) (by rfl) (by decide)
  · exact C3_extractor.2.2.2.2 "no json here" (by rfl)

/-- Claim C7 witness: the amended statement at default environment urls and
a never-resolving upstream. -/
theorem C7_timeout_bounds_witness :
    UpstreamTime.axiosCompletion (UpstreamTime.callMindsDBConfig none)
      UpstreamTime.Fate.neverResolves = some (60000, true)
    ∧ UpstreamTime.axiosCompletion (UpstreamTime.camelValidateConfig none)
      UpstreamTime.Fate.neverResolves = none :=
  ⟨C7_timeout_bounds.1 none, C7_timeout_bounds.2.2.2.2.2 none⟩
